import Mathlib

/-!
Verification development for the WhyMyBabyCries care-event backend.

The definitions below are a shallow embedding of the relevant source files:

* `src/backend/engine/learning.py`  — adaptive prior store (time buckets,
  feedback updates);
* `src/engine/engine.py`            — reasoning orchestrator helpers
  (inference normalization, prior blending, confidence tiering, guidance
  validation);
* `src/backend/app.py`              — HTTP-facing core: single-shot crying
  ingestion, the live-stream session manager (start / chunk / finish,
  staleness sweep), the A/B experiment controller and the metrics
  aggregator.

Modelling conventions:

* Python numbers are modelled as `Rat` (exact rationals); `round(x, 4)`
  is modelled by `roundTo4` (round-half-to-even, the mode used by Python's
  `round`, applied to the exact rational value).
* JSON values (event payloads, guidance objects, errors) are modelled by
  the inductive type `JVal`; Python `dict` is an insertion-ordered
  association list, `dict.get` with its `None` default and Python
  truthiness are modelled explicitly.
* ISO-8601 timestamps are modelled by `IsoTime` in parsed form:
  `localSeconds` is the written (naive) date-time as seconds since epoch
  and `offsetMinutes` the written UTC offset; `Python datetime.hour` is
  the hour of the written time, while the instant is obtained by
  subtracting the offset.  A field of type `Option IsoTime` stands for a
  timestamp string, `none` meaning absent or unparseable.
* Calls to the external inference provider (`run_reasoning`, which posts
  to the Gemini endpoint) are modelled by an oracle parameter of type
  `ReasonOutcome`: `.ok` carries the validated enrichment, `.error` the
  structured error object, exactly as `run_reasoning` returns
  `(result, None)` or `(None, error)`.
* Operations that can raise an uncaught Python exception (for example
  calling `.lower()` on a truthy non-string) are `Option`-valued; a
  `none` result of a handler models an exception propagating out of the
  handler.
-/

/-! ## Rounding: model of Python `round(x, n)` on exact rationals -/

/-- Round-half-to-even of a rational to an integer (the rounding mode of
Python `round`). -/
def roundHalfEven (q : ℚ) : ℤ :=
  if q - ⌊q⌋ < 1/2 then ⌊q⌋
  else if 1/2 < q - ⌊q⌋ then ⌊q⌋ + 1
  else if ⌊q⌋ % 2 = 0 then ⌊q⌋ else ⌊q⌋ + 1

/-- Model of Python `round(x, 4)` on the exact rational value. -/
def roundTo4 (q : ℚ) : ℚ := (roundHalfEven (q * 10000) : ℚ) / 10000

/-! ## JSON values and Python dict semantics

Event payloads, guidance objects and reasoning errors are open JSON
mappings in the source; `JVal` models JSON values, with a Python `dict`
as an insertion-ordered association list with unique keys. -/

inductive JVal where
  | null
  | jbool (b : Bool)
  | num (q : ℚ)
  | str (s : String)
  | arr (xs : List JVal)
  | obj (kvs : List (String × JVal))
deriving Inhabited

/-- First-match lookup in an association list (Python dict access);
`none` means the key is absent. -/
def jget : List (String × JVal) → String → Option JVal
  | [], _ => none
  | (k, v) :: rest, key => if k = key then some v else jget rest key

/-- Python `d[k] = v`: replace the value of an existing key in place,
append the binding otherwise. -/
def jset : List (String × JVal) → String → JVal → List (String × JVal)
  | [], key, v => [(key, v)]
  | (k, w) :: rest, key, v =>
      if k = key then (k, v) :: rest else (k, w) :: jset rest key v

/-- Python `d.pop(k, None)`: drop the binding of `k` when present. -/
def jerase : List (String × JVal) → String → List (String × JVal)
  | [], _ => []
  | (k, v) :: rest, key => if k = key then rest else (k, v) :: jerase rest key

/-- Python `k in d`. -/
def jhasKey (kvs : List (String × JVal)) (key : String) : Bool :=
  (jget kvs key).isSome

/-- Python `d.get(k)`: absent keys yield `None`. -/
def jgetd (kvs : List (String × JVal)) (key : String) : JVal :=
  (jget kvs key).getD .null

/-- Python `d.get(k, default)`. -/
def jgetD (kvs : List (String × JVal)) (key : String) (dflt : JVal) : JVal :=
  (jget kvs key).getD dflt

namespace JVal

/-- Python truthiness of a JSON value. -/
def truthy : JVal → Bool
  | .null => false
  | .jbool b => b
  | .num q => q != 0
  | .str s => s != ""
  | .arr xs => !xs.isEmpty
  | .obj kvs => !kvs.isEmpty

def isObj : JVal → Bool
  | .obj _ => true
  | _ => false

/-- `isinstance(v, dict)` guard: the underlying association list, or
`none` for non-dicts. -/
def asObj : JVal → Option (List (String × JVal))
  | .obj kvs => some kvs
  | _ => none

def asArr : JVal → Option (List JVal)
  | .arr xs => some xs
  | _ => none

/-- Python numeric view used by `isinstance(v, (int, float))` call sites:
`bool` is a subclass of `int` in Python, so `True`/`False` count as
`1`/`0`. -/
def pyNum? : JVal → Option ℚ
  | .num q => some q
  | .jbool b => some (if b then 1 else 0)
  | _ => none

/-- Python `v == s` for a string literal `s`: only a `str` can compare
equal to a string. -/
def eqStr : JVal → String → Bool
  | .str t, s => t == s
  | _, _ => false

/-- Python `a or b`. -/
def jor (a b : JVal) : JVal := if a.truthy then a else b

end JVal

/-- `_is_probability(value)` from `src/engine/engine.py`:
`isinstance(value, (int, float)) and 0 <= value <= 1`. -/
def isProbabilityJ (v : JVal) : Bool :=
  match v.pyNum? with
  | some q => decide (0 ≤ q) && decide (q ≤ 1)
  | none => false

/-! ## Substring search (Python `needle in haystack` on strings) -/

def charsIsPrefix : List Char → List Char → Bool
  | [], _ => true
  | _ :: _, [] => false
  | c :: cs, d :: ds => c == d && charsIsPrefix cs ds

def charsIsInfix : List Char → List Char → Bool
  | needle, [] => needle.isEmpty
  | needle, d :: ds =>
      charsIsPrefix needle (d :: ds) || charsIsInfix needle ds

/-- Python `needle in hay` on strings. -/
def strContains (hay needle : String) : Bool :=
  charsIsInfix needle.data hay.data

/-- Python `s.lower()` (character-wise lowering; every string the
handlers compare against is ASCII). -/
def strLower (s : String) : String := ⟨s.data.map Char.toLower⟩

/-! ## Timestamps

`IsoTime` is the parsed form of an ISO-8601 timestamp string:
`localSeconds` is the written (naive) date-time counted in seconds since
the epoch and `offsetMinutes` the written UTC offset (0 for `Z` or for
naive timestamps).  Python `datetime.hour` reads the written hour field;
instants (for datetime comparison and subtraction) subtract the offset.
An `Option IsoTime` models a timestamp string, `none` standing for a
missing or unparseable value (both `_parse_iso` helpers return `None`
then). -/

structure IsoTime where
  localSeconds : ℕ
  offsetMinutes : ℤ
deriving DecidableEq

/-- Python `dt.hour`: the hour as written in the timestamp. -/
def IsoTime.hour (t : IsoTime) : ℕ := t.localSeconds / 3600 % 24

/-- The absolute instant, in seconds since the epoch. -/
def IsoTime.instant (t : IsoTime) : ℤ :=
  (t.localSeconds : ℤ) - t.offsetMinutes * 60

/-- The hour-of-day of the instant in UTC. -/
def IsoTime.utcHour (t : IsoTime) : ℤ :=
  (t.instant.fdiv 3600).emod 24

/-! ## Cause labels and prior distributions -/

/-- The four cause labels (`CAUSE_LABELS` / keys of `DEFAULT_PRIORS`). -/
inductive CauseLabel where
  | hunger
  | discomfort
  | emotional_need
  | unknown
deriving DecidableEq

/-- A mapping `cause_label → probability` with all four keys present
(the shape produced by `_merge_prior_values` and `_normalize`). -/
structure PriorDist where
  hunger : ℚ
  discomfort : ℚ
  emotional_need : ℚ
  unknown : ℚ
deriving DecidableEq

def PriorDist.get (d : PriorDist) : CauseLabel → ℚ
  | .hunger => d.hunger
  | .discomfort => d.discomfort
  | .emotional_need => d.emotional_need
  | .unknown => d.unknown

def PriorDist.set (d : PriorDist) : CauseLabel → ℚ → PriorDist
  | .hunger, v => { d with hunger := v }
  | .discomfort, v => { d with discomfort := v }
  | .emotional_need, v => { d with emotional_need := v }
  | .unknown, v => { d with unknown := v }

def PriorDist.sum (d : PriorDist) : ℚ :=
  d.hunger + d.discomfort + d.emotional_need + d.unknown

def PriorDist.map (f : ℚ → ℚ) (d : PriorDist) : PriorDist :=
  ⟨f d.hunger, f d.discomfort, f d.emotional_need, f d.unknown⟩

/-- Componentwise non-negativity of a prior distribution. -/
def PriorDist.Nonneg (d : PriorDist) : Prop :=
  0 ≤ d.hunger ∧ 0 ≤ d.discomfort ∧ 0 ≤ d.emotional_need ∧ 0 ≤ d.unknown

/-- A raw JSON mapping restricted to the four cause labels, as read from
memory or from a model response: `none` stands for an absent key or a
non-numeric value. -/
structure LabelJson where
  hunger : Option ℚ
  discomfort : Option ℚ
  emotional_need : Option ℚ
  unknown : Option ℚ
deriving DecidableEq

/-! ## Adaptive prior store (`src/backend/engine/learning.py`) -/

def DEFAULT_PRIORS : PriorDist := ⟨1/4, 1/4, 1/4, 1/4⟩

/-- `_normalize(priors)`: renormalize a four-label mapping; if the total
is non-positive fall back to the defaults, otherwise divide by the total
and round each share to 4 decimals. -/
def normalizePriors (p : PriorDist) : PriorDist :=
  if p.sum ≤ 0 then DEFAULT_PRIORS
  else PriorDist.map (fun v => roundTo4 (v / p.sum)) p

/-- `_time_bucket` result values. -/
inductive Bucket where
  | day
  | night
deriving DecidableEq

/-- `_time_bucket(occurred_at)`: `night` when the written hour-of-day is
in `[20,24) ∪ [0,6)`, `day` otherwise or when the timestamp does not
parse.  Note the source reads `dt.hour`, the hour as written, without
converting the instant to UTC. -/
def timeBucket (t : Option IsoTime) : Bucket :=
  match t with
  | none => .day
  | some dt => if 20 ≤ dt.hour ∨ dt.hour < 6 then .night else .day

/-- One label of `_merge_prior_values`: a numeric stored value is clipped
below at 0, anything else keeps the default. -/
def mergePick (v : Option ℚ) (dflt : ℚ) : ℚ :=
  match v with
  | some x => max 0 x
  | none => dflt

/-- `_merge_prior_values(source)`: start from the defaults and overlay
the numeric values of the four labels, clipped below at 0. -/
def mergePriorValues (source : Option LabelJson) : PriorDist :=
  match source with
  | none => DEFAULT_PRIORS
  | some f =>
      ⟨mergePick f.hunger (1/4), mergePick f.discomfort (1/4),
       mergePick f.emotional_need (1/4), mergePick f.unknown (1/4)⟩

/-- The persisted agent memory, restricted to the fields the prior store
reads and writes: `reasoning_priors_buckets` is `some f` when the key
holds a dict (with `f b` the per-bucket sub-dict, `none` when that inner
value is absent or not a dict), and `reasoning_priors` is the legacy flat
mapping.  File load/save is modelled by value passing. -/
structure MemoryData where
  reasoning_priors_buckets : Option (Bucket → Option LabelJson)
  reasoning_priors : Option LabelJson

def PriorDist.toLabelJson (d : PriorDist) : LabelJson :=
  ⟨some d.hunger, some d.discomfort, some d.emotional_need, some d.unknown⟩

/-- The bucket-selection half of `load_reasoning_priors`: when the
bucketed store exists use the requested bucket, else fall back to the
legacy flat mapping; merge and renormalize either way. -/
def loadPriorsForBucket (data : MemoryData) (b : Bucket) : PriorDist :=
  match data.reasoning_priors_buckets with
  | some bk => normalizePriors (mergePriorValues (bk b))
  | none => normalizePriors (mergePriorValues data.reasoning_priors)

/-- `load_reasoning_priors(memory_file, occurred_at)`. -/
def loadReasoningPriors (data : MemoryData) (occurred_at : Option IsoTime) :
    PriorDist :=
  loadPriorsForBucket data (timeBucket occurred_at)

/-- `label in DEFAULT_PRIORS` membership test on a JSON label value (only
the four exact strings are keys).  An unhashable label (list/dict) raises
in Python; no claim depends on that corner and the model folds it into
the rejection path. -/
def parseCauseLabel (v : JVal) : Option CauseLabel :=
  match v with
  | .str s =>
      if s = "hunger" then some .hunger
      else if s = "discomfort" then some .discomfort
      else if s = "emotional_need" then some .emotional_need
      else if s = "unknown" then some .unknown
      else none
  | _ => none

/-! ## Care events and the external event store

The event store (`src/db/sqlite_store.py`) is an external collaborator;
it is modelled as a list of events with first-match lookup by id.
`occurred_at`/`created_at` hold the parse of the stored timestamp string
(`none` when the stored string does not parse). -/

structure CareEvent where
  id : String
  type_ : String
  occurred_at : Option IsoTime
  source : JVal
  category : String
  payload : JVal
  tags : JVal
  created_at : Option IsoTime
deriving Inhabited

abbrev EventStore := List CareEvent

def getEventById (store : EventStore) (eid : String) : Option CareEvent :=
  store.find? (fun e => e.id == eid)

/-- `insert_event` uses `INSERT OR IGNORE`: inserting an id that already
exists leaves the store unchanged. -/
def insertEvent (store : EventStore) (e : CareEvent) : EventStore :=
  if (getEventById store e.id).isSome then store else store ++ [e]

def updateEventPayload (store : EventStore) (eid : String) (p : JVal) :
    EventStore :=
  store.map (fun e => if e.id = eid then { e with payload := p } else e)

/-- The record returned by `update_reasoning_priors` for audit/telemetry. -/
structure PriorUpdateRecord where
  updated_label : CauseLabel
  time_bucket : Bucket
  helpful : Bool
  delta : ℚ
  before : PriorDist
  after : PriorDist
deriving DecidableEq

/-- The `buckets` dict of `update_reasoning_priors`
(`{}` when the key is absent or not a dict). -/
def memoryBucketsF (data : MemoryData) : Bucket → Option LabelJson :=
  match data.reasoning_priors_buckets with
  | some f => f
  | none => fun _ => none

/-- `source_bucket`: the stored bucket dict, falling back to the legacy
flat mapping when absent or not a dict. -/
def memorySourceBucket (data : MemoryData) (bucket : Bucket) :
    Option LabelJson :=
  match memoryBucketsF data bucket with
  | some sp => some sp
  | none => data.reasoning_priors

/-- The arithmetic core of `update_reasoning_priors`: normalized merge of
the stored bucket, apply `±0.05` to the chosen label, clamp it to
`[0.05, 0.9]`, renormalize. -/
def updatedBucketDist (data : MemoryData) (bucket : Bucket)
    (label : CauseLabel) (helpful : Bool) : PriorDist × PriorDist :=
  let current := normalizePriors (mergePriorValues (memorySourceBucket data bucket))
  let delta : ℚ := if helpful then 1/20 else -(1/20)
  let clamped := max (1/20) (min (9/10) (current.get label + delta))
  (current, normalizePriors (current.set label clamped))

/-- `update_reasoning_priors(memory_file, event, feedback)`: `none` is the
silent no-op on malformed feedback or an unrecognized guidance label;
`some (data, record)` carries the saved memory and the audit record. -/
def updateReasoningPriors (data : MemoryData) (event : CareEvent)
    (feedback : JVal) : Option (MemoryData × PriorUpdateRecord) :=
  match feedback.asObj with
  | none => none
  | some fkvs =>
    match jgetd fkvs ("helpful") with
    | .jbool b =>
      match event.payload.asObj with
      | none => none
      | some pkvs =>
        match (jgetd pkvs ("ai_guidance")).asObj with
        | none => none
        | some gkvs =>
          match (jgetd gkvs ("most_likely_cause")).asObj with
          | none => none
          | some mkvs =>
            match parseCauseLabel (jgetd mkvs ("label")) with
            | none => none
            | some label =>
              let bucket := timeBucket event.occurred_at
              let (before, after) := updatedBucketDist data bucket label b
              let stored := after.toLabelJson
              let data' : MemoryData :=
                { reasoning_priors_buckets :=
                    some (fun bk =>
                      if bk = bucket then some stored
                      else memoryBucketsF data bk),
                  reasoning_priors := some stored }
              some (data',
                { updated_label := label, time_bucket := bucket, helpful := b,
                  delta := if b then 1/20 else -(1/20),
                  before := before, after := after })
    | _ => none

/-! ## Reasoning orchestrator helpers (`src/engine/engine.py`) -/

/-- The non-negative numeric reading of one inference value: anything
absent, non-numeric or negative counts as 0 (only values passing
`isinstance(value, (int, float)) and value >= 0` are kept). -/
def pickInference (v : Option ℚ) : ℚ :=
  match v with
  | some x => if 0 ≤ x then x else 0
  | none => 0

/-- The `normalized` mapping built by `_normalize_inference` before the
total test. -/
def inferenceRaw (inference : Option LabelJson) : PriorDist :=
  match inference with
  | some inf => ⟨pickInference inf.hunger, pickInference inf.discomfort,
                 pickInference inf.emotional_need, pickInference inf.unknown⟩
  | none => ⟨0, 0, 0, 0⟩

/-- `_normalize_inference(inference)`: collect the non-negative numeric
values of the four labels, then either collapse to `{unknown: 1.0}` when
the total is non-positive or divide by the total and round each share to
4 decimals.  The argument is the `inference` JSON value restricted to
the four labels (`none` = not a dict at all). -/
def normalizeInference (inference : Option LabelJson) : PriorDist :=
  if (inferenceRaw inference).sum ≤ 0 then ⟨0, 0, 0, 1⟩
  else
    PriorDist.map (fun v => roundTo4 (v / (inferenceRaw inference).sum))
      (inferenceRaw inference)

/-- Every value across the four labels is absent, non-numeric, zero or
negative. -/
def allNonPosInference (inference : Option LabelJson) : Bool :=
  let chk : Option ℚ → Bool := fun v =>
    match v with
    | some x => decide (x ≤ 0)
    | none => true
  match inference with
  | none => true
  | some f => chk f.hunger && chk f.discomfort && chk f.emotional_need && chk f.unknown

/-- `_validate_audio_analysis(payload)` as a boolean (the error message is
not modelled). -/
def validateAudioAnalysis (v : JVal) : Bool :=
  match v with
  | .obj kvs =>
      (match jgetd kvs ("transcription") with
       | .null => true
       | .str _ => true
       | _ => false)
      && (match jgetd kvs ("inference") with
          | .obj ikvs =>
              isProbabilityJ (jgetd ikvs ("hunger"))
              || isProbabilityJ (jgetd ikvs ("discomfort"))
              || isProbabilityJ (jgetd ikvs ("emotional_need"))
              || isProbabilityJ (jgetd ikvs ("unknown"))
          | _ => false)
  | _ => false

/-- `_validate_guidance_output(payload)` as a boolean (the error message
is not modelled). -/
def validateGuidanceOutput (v : JVal) : Bool :=
  match v with
  | .obj kvs =>
      jhasKey kvs ("most_likely_cause")
      && jhasKey kvs ("alternative_causes")
      && jhasKey kvs ("recommended_actions")
      && jhasKey kvs ("caregiver_notice")
      && (match jgetd kvs ("most_likely_cause") with
          | .obj mkvs =>
              jhasKey mkvs ("label") && jhasKey mkvs ("confidence")
              && jhasKey mkvs ("reasoning")
              && isProbabilityJ (jgetd mkvs ("confidence"))
          | _ => false)
      && (match jgetd kvs ("alternative_causes") with
          | .arr xs =>
              xs.all (fun item =>
                match item with
                | .obj ikvs =>
                    jhasKey ikvs ("confidence")
                    && isProbabilityJ (jgetd ikvs ("confidence"))
                | _ => false)
          | _ => false)
      && (match jgetd kvs ("recommended_actions") with
          | .arr _ => true
          | _ => false)
  | _ => false

/-- `_derive_confidence_level(score)`. -/
def deriveConfidenceLevel (score : ℚ) : String :=
  if 3/4 ≤ score then "high"
  else if 9/20 ≤ score then "medium"
  else "low"

/-- The `recent_care_summary` built by `_build_recent_summary` (the
minutes-ago values depend on the wall clock; only presence/absence is
consumed by `_has_limited_context`). -/
structure RecentSummary where
  last_feeding_minutes_ago : Option ℤ
  last_diaper_minutes_ago : Option ℤ
  last_sleep_minutes_ago : Option ℤ
  last_sleep_duration_min : Option ℤ

/-- `_has_limited_context(recent_summary, recent_events)`. -/
def hasLimitedContext (summary : RecentSummary) (recentEvents : List CareEvent) :
    Bool :=
  if recentEvents.isEmpty then true
  else
    2 ≤ ((if summary.last_feeding_minutes_ago = none then 1 else 0)
        + (if summary.last_diaper_minutes_ago = none then 1 else 0)
        + (if summary.last_sleep_minutes_ago = none then 1 else 0) : ℕ)

/-- `learned_priors.get(label)`: `none` models the `TypeError` raised on
an unhashable (list/dict) label; hashable non-string labels simply miss
the string keys and give Python `None`. -/
def priorLookup (pkvs : List (String × JVal)) (labelV : JVal) : Option JVal :=
  match labelV with
  | .arr _ => none
  | .obj _ => none
  | .str s => some (jgetd pkvs s)
  | _ => some JVal.null

/-- `_apply_prior_blend(guidance, learned_priors)`.  Result `none` models
the `TypeError` raised on an unhashable guidance label or on `.get` of a
non-dict guidance. -/
def applyPriorBlend (guidance : JVal) (learnedPriors : JVal) : Option JVal :=
  match learnedPriors with
  | .obj pkvs =>
      match guidance with
      | .obj gkvs =>
          match jgetd gkvs ("most_likely_cause") with
          | .obj mkvs =>
              match priorLookup pkvs (jgetd mkvs ("label")) with
              | none => none
              | some priorV =>
                  let confV := jgetd mkvs ("confidence")
                  if isProbabilityJ priorV && isProbabilityJ confV then
                    let pv := (priorV.pyNum?).getD 0
                    let cv := (confV.pyNum?).getD 0
                    let blended := roundTo4 (7/10 * cv + 3/10 * pv)
                    let mkvs2 := jset mkvs ("confidence") (.num blended)
                    let gkvs2 := jset gkvs ("most_likely_cause") (.obj mkvs2)
                    let gkvs3 := jset gkvs2 ("prior_weight") (.obj
                      [(("label"), jgetd mkvs ("label")), (("prior"), priorV),
                       (("strategy"), .str ("0.7_model + 0.3_feedback_prior"))])
                    some (.obj gkvs3)
                  else some guidance
          | _ => some guidance
      | _ => none
  | _ => some guidance

/-- `_finalize_guidance(payload, recent_summary, recent_events,
learned_priors)`: blend the prior in, derive the confidence tier from the
(possibly blended) winning confidence, and attach or remove the
uncertainty note.  `none` models an uncaught exception (missing
`most_likely_cause`/`confidence`, or a non-numeric confidence). -/
def finalizeGuidance (payload : JVal) (summary : RecentSummary)
    (recentEvents : List CareEvent) (learnedPriors : JVal) : Option JVal :=
  match applyPriorBlend payload learnedPriors with
  | none => none
  | some payload =>
    match payload.asObj with
    | none => none
    | some pkvs =>
      match (jgetd pkvs ("most_likely_cause")).asObj with
      | none => none
      | some mkvs =>
        match jget mkvs ("confidence") with
        | none => none
        | some confV =>
          match confV.pyNum? with
          | none => none
          | some c =>
            let pkvs := jset pkvs ("confidence_level")
              (.str (deriveConfidenceLevel c))
            let pkvs :=
              if hasLimitedContext summary recentEvents then
                jset pkvs ("uncertainty_note")
                  (.str ("Limited recent care data available"))
              else jerase pkvs ("uncertainty_note")
            some (.obj pkvs)

/-! ## HTTP-facing core (`src/backend/app.py`) -/

def CRYING_NOTICE : String :=
  "Crying insights are generated based on sound patterns and recent care history.\nThey are probabilistic suggestions to assist caregivers, not medical diagnoses."

def GUIDANCE_UNAVAILABLE_NOTICE : String :=
  "Guidance unavailable due to limited data at this time."

def SAFETY_NOTICE : String :=
  "If high-intensity crying continues or worsens, consider contacting a pediatric professional."

/-- The `lines` list built by `_compose_notice`. -/
def noticeLines (guidanceUnavailable safety : Bool) : List String :=
  [CRYING_NOTICE]
    ++ (if guidanceUnavailable then [GUIDANCE_UNAVAILABLE_NOTICE] else [])
    ++ (if safety then [SAFETY_NOTICE] else [])

/-- `_compose_notice(include_guidance_unavailable, include_safety)`. -/
def composeNotice (guidanceUnavailable safety : Bool) : String :=
  String.intercalate "\n" (noticeLines guidanceUnavailable safety)

def HIGH_INTENSITY_WINDOW_MIN : ℤ := 60
def HIGH_INTENSITY_THRESHOLD : ℕ := 3
def LIVE_CHUNK_MAX_BYTES : ℕ := 512 * 1024
def LIVE_PARTIAL_EVERY_CHUNKS : ℕ := 3
def LIVE_STREAM_TIMEOUT_SEC : ℤ := 300
def MAX_AUDIO_BYTES : ℕ := 10 * 1024 * 1024

def HIGH_INTENSITY_KEYWORDS : List String :=
  [("high"), ("intense"), ("piercing"), ("loud"), ("shrill")]

/-- `_event_time(event)`: the parsed `occurred_at`, else the parsed
`created_at`. -/
def eventTime (e : CareEvent) : Option IsoTime :=
  match e.occurred_at with
  | some t => some t
  | none => e.created_at

/-- `_is_high_intensity(event)`: keyword scan over the lower-cased
transcription.  `none` models the `AttributeError` raised by `.lower()`
when the stored transcription is a truthy non-string. -/
def isHighIntensity (e : CareEvent) : Option Bool :=
  match e.payload with
  | .obj pkvs =>
      match jgetd pkvs ("audio_analysis") with
      | .obj akvs =>
          let tv := jgetd akvs ("transcription")
          if tv.truthy then
            match tv with
            | .str s =>
                some (HIGH_INTENSITY_KEYWORDS.any (fun k => strContains (strLower s) k))
            | _ => none
          else
            -- `(falsy or "").lower()` is ""; no keyword occurs in ""
            some false
      | _ => some false
  | _ => some false

/-- The loop of `_should_add_safety_notice` over the recent events:
count the high-intensity crying events inside the lookback window
(instants compared; `_is_high_intensity` only runs for events inside the
window, matching the short-circuit in the source). -/
def countHighIntensityIn (windowStart currentInstant : ℤ) :
    List CareEvent → Option ℕ
  | [] => some 0
  | e :: rest => do
      let add ←
        if e.category ≠ "crying" then some 0
        else
          match eventTime e with
          | none => some 0
          | some t =>
              if windowStart ≤ t.instant ∧ t.instant ≤ currentInstant then do
                let hi ← isHighIntensity e
                pure (if hi then (1:ℕ) else 0)
              else some 0
      let restCount ← countHighIntensityIn windowStart currentInstant rest
      some (add + restCount)

/-- `_should_add_safety_notice(current_event, recent_events)`. -/
def shouldAddSafetyNotice (current : CareEvent) (recents : List CareEvent) :
    Option Bool :=
  match eventTime current with
  | none => some false
  | some ct => do
      let ws := ct.instant - HIGH_INTENSITY_WINDOW_MIN * 60
      let hc ← isHighIntensity current
      let base : ℕ := if hc then 1 else 0
      let more ← countHighIntensityIn ws ct.instant recents
      some (HIGH_INTENSITY_THRESHOLD ≤ base + more)

/-- `_resolve_ab_variant(requested_variant, event_id)`.  The md5 digest of
the event id is external entropy, modelled by the `md5Head` parameter
(`int(digest[:2], 16)`). -/
def resolveAbVariant (autoSplit : Bool) (md5Head : String → ℕ)
    (requested : JVal) (eventId : String) : String :=
  if requested.eqStr ("treatment") then "treatment"
  else if requested.eqStr ("control") then "control"
  else if autoSplit then
    if md5Head eventId % 2 = 1 then "control" else "treatment"
  else "treatment"

/-- The value returned by `run_reasoning(...)`: either the validated
enrichment `{audio_analysis, ai_guidance, ai_meta}` or the structured
error object.  The call itself reaches the external inference provider,
so handler models take the outcome as an oracle parameter. -/
structure Enrichment where
  audio_analysis : JVal
  ai_guidance : JVal
  ai_meta : JVal

inductive ReasonOutcome where
  | ok (enr : Enrichment)
  | err (e : JVal)

/-- Well-formedness of a successful `run_reasoning` outcome, as
guaranteed by the validation steps inside `run_reasoning` before it
returns a result: the guidance passed `_validate_guidance_output`, and
`audio_analysis`/`ai_meta` are the dicts the engine constructs. -/
def EnrichmentWF (enr : Enrichment) : Prop :=
  validateGuidanceOutput enr.ai_guidance = true
  ∧ enr.ai_meta.isObj = true
  ∧ enr.audio_analysis.isObj = true

/-- `error.get("ai_meta", {}) if isinstance(error, dict) else {}`. -/
def errorAiMeta (e : JVal) : JVal :=
  match e with
  | .obj kvs => jgetD kvs ("ai_meta") (.obj [])
  | _ => .obj []

/-- Display selection of `_apply_reasoning_to_event` (treatment result
unless assigned control and the control guidance is truthy), returning
`(shown_variant, shown_guidance, shown_meta)`. -/
def selectShown (assigned : String) (tg tm cg cm : JVal) :
    String × JVal × JVal :=
  if assigned == "control" && cg.truthy then ("control", cg, cm)
  else ("treatment", tg, tm)

/-- `control_guidance`: `control_enrichment.get("ai_guidance")` when the
control call succeeded, `None` otherwise. -/
def controlGuidanceOf : ReasonOutcome → JVal
  | .ok cenr => cenr.ai_guidance
  | .err _ => .null

/-- `control_meta`: `control_enrichment.get("ai_meta", {})` when the
control call succeeded, `{}` otherwise. -/
def controlMetaOf : ReasonOutcome → JVal
  | .ok cenr => cenr.ai_meta
  | .err _ => .obj []

def controlErrorOf : ReasonOutcome → Option JVal
  | .ok _ => none
  | .err e => some e

/-- The payload written by the success branch of
`_apply_reasoning_to_event` (before the notice line is attached). -/
def buildSuccessPayload (autoSplit : Bool) (assigned : String)
    (base : List (String × JVal)) (enr : Enrichment) (cOut : ReasonOutcome) :
    List (String × JVal) :=
  let tg := enr.ai_guidance
  let tm := enr.ai_meta
  let cg := controlGuidanceOf cOut
  let cm := controlMetaOf cOut
  let sel := selectShown assigned tg tm cg cm
  let p := jset base ("audio_analysis") enr.audio_analysis
  let p := jset p ("ai") enr.audio_analysis
  let p := jset p ("ai_guidance") sel.2.1
  let p := jset p ("ai_meta") sel.2.2
  let abObj : List (String × JVal) :=
    [(("assigned_variant"), .str assigned),
     (("shown_variant"), .str sel.1),
     (("auto_split_enabled"), .jbool autoSplit),
     (("baseline_mode"), .str ("no_context_no_prior")),
     (("treatment"), .obj [(("ai_guidance"), tg), (("ai_meta"), tm)]),
     (("control"), .obj [(("ai_guidance"), cg), (("ai_meta"), cm)])]
  let abObj :=
    match controlErrorOf cOut with
    | some e => if e.truthy then jset abObj ("control_error") e else abObj
    | none => abObj
  jset p ("ab_test") (.obj abObj)

/-- The payload written by the error branch of
`_apply_reasoning_to_event` (before the notice line is attached):
`ai_guidance` is popped, `ai_meta` comes from the error, and the A/B
record keeps `shown_variant = None` plus the treatment error. -/
def buildErrorPayload (autoSplit : Bool) (assigned : String)
    (base : List (String × JVal)) (e : JVal) : List (String × JVal) :=
  let p := jerase base ("ai_guidance")
  let p := jset p ("ai_meta") (errorAiMeta e)
  jset p ("ab_test") (.obj
    [(("assigned_variant"), .str assigned),
     (("shown_variant"), .null),
     (("auto_split_enabled"), .jbool autoSplit),
     (("baseline_mode"), .str ("no_context_no_prior")),
     (("treatment_error"), e)])

/-- `_apply_reasoning_to_event(event, audio_bytes, audio_mime_type,
assigned_variant)`.  The two `run_reasoning` calls are the oracle
parameters `tOut` (full context and learned priors) and `cOut` (the
no-context baseline over the same audio analysis; only consulted when
the first call succeeds).  Returns the updated store together with the
`(event, success, error)` triple of the source; `none` models an uncaught
exception (a truthy non-string transcription inside the safety-notice
scan, or a non-dict stored payload). -/
def applyReasoningToEvent (autoSplit : Bool) (store : EventStore)
    (recents : List CareEvent) (event : CareEvent) (assigned : String)
    (tOut cOut : ReasonOutcome) :
    Option (EventStore × CareEvent × Bool × Option JVal) :=
  let recentEvents := recents.filter (fun it => it.id ≠ event.id)
  match tOut with
  | .ok enr =>
      match event.payload.asObj with
      | none => none
      | some base =>
        let p := buildSuccessPayload autoSplit assigned base enr cOut
        match shouldAddSafetyNotice { event with payload := .obj p } recentEvents with
        | none => none
        | some addSafety =>
          let p := jset p ("notice") (.str (composeNotice false addSafety))
          let store := updateEventPayload store event.id (.obj p)
          some (store, { event with payload := .obj p }, true, none)
  | .err e =>
      match event.payload.asObj with
      | none => none
      | some base =>
        let p := buildErrorPayload autoSplit assigned base e
        match shouldAddSafetyNotice { event with payload := .obj p } recentEvents with
        | none => none
        | some addSafety =>
          let p := jset p ("notice") (.str (composeNotice true addSafety))
          let store := updateEventPayload store event.id (.obj p)
          some (store, { event with payload := .obj p }, false, some e)

/-! ## Live stream registry and staleness sweep -/

/-- One `LIVE_STREAMS` registry entry.  `fileLen` models the number of
bytes accumulated in the append-only buffer file at `file_path`. -/
structure StreamState where
  event_id : String
  file_path : String
  audio_mime_type : JVal
  chunk_count : ℕ
  total_bytes : ℕ
  last_activity : ℤ
  assigned_variant : String
  fileLen : ℕ

/-- The `LIVE_STREAMS` dict (insertion-ordered, unique keys). -/
abbrev LiveStreams := List (String × StreamState)

def lookupStream (streams : LiveStreams) (sid : String) : Option StreamState :=
  (streams.find? (fun p => p.1 == sid)).map Prod.snd

def putStream (streams : LiveStreams) (sid : String) (st : StreamState) :
    LiveStreams :=
  if (lookupStream streams sid).isSome then
    streams.map (fun p => if p.1 = sid then (p.1, st) else p)
  else streams ++ [(sid, st)]

def removeStream (streams : LiveStreams) (sid : String) : LiveStreams :=
  streams.filter (fun p => p.1 ≠ sid)

/-- The staleness test of `_cleanup_stale_live_streams`:
`(now - last_activity).total_seconds() > LIVE_STREAM_TIMEOUT_SEC`. -/
def isStale (now : ℤ) (st : StreamState) : Bool :=
  LIVE_STREAM_TIMEOUT_SEC < now - st.last_activity

/-- One pass of the reap loop in `_cleanup_stale_live_streams` for a
collected stale id: mark the stream's event completed with reason
`timeout`, attach the guidance-unavailable notice, and drop the registry
entry.  `none` models the exception raised when the stored payload is not
a dict. -/
def reapStream (nowIso : String) (acc : EventStore × LiveStreams)
    (sid : String) : Option (EventStore × LiveStreams) :=
  let (store, streams) := acc
  match lookupStream streams sid with
  | none => some (store, streams)
  | some st =>
      match getEventById store st.event_id with
      | none => some (store, removeStream streams sid)
      | some ev =>
          match ev.payload.asObj with
          | none => none
          | some base =>
              let skvs :=
                match jgetd base ("streaming") with
                | .obj s => s
                | _ => []
              let skvs := jset skvs ("status") (.str ("completed"))
              let skvs := jset skvs ("ended_at") (.str nowIso)
              let skvs := jset skvs ("ended_reason") (.str ("timeout"))
              let p := jset base ("streaming") (.obj skvs)
              let p := jset p ("notice") (.str (composeNotice true false))
              some (updateEventPayload store st.event_id (.obj p),
                    removeStream streams sid)

/-- `_cleanup_stale_live_streams()`: collect the stale ids, then reap
each.  Runs at the top of every live endpoint handler. -/
def cleanupStaleLiveStreams (now : ℤ) (nowIso : String)
    (store : EventStore) (streams : LiveStreams) :
    Option (EventStore × LiveStreams) :=
  let staleIds := (streams.filter (fun p => isStale now p.2)).map Prod.fst
  staleIds.foldlM (reapStream nowIso) (store, streams)

/-! ## Endpoint handler cores

Each handler model starts from the parsed request (transport and
body-decoding guards of `BaseHTTPRequestHandler` are outside the model),
takes the current wall clock as `nowT : IsoTime` (offset 0) with `nowIso`
its string rendering, the freshly generated identifiers, and the
reasoning oracle(s).  The `recents` parameter is the result of the
external `fetch_recent_events(20, None)` call. -/

/-- `stub_gemini_result()` (`src/backend/audio/analysis.py`); the
`version` field carries the current date string. -/
def stubGeminiResult (versionDate : String) : JVal :=
  .obj [(("transcription"), .str ("high-pitched crying")),
        (("inference"), .obj
          [(("hunger"), .num (62/100)), (("discomfort"), .num (23/100)),
           (("emotional_need"), .num (10/100)), (("unknown"), .num (5/100))]),
        (("model"), .str ("gemini-3")),
        (("version"), .str versionDate)]

/-- The extension part of `os.path.splitext(name)`: the suffix from the
last dot, ignoring leading dots, or the empty string. -/
def splitextExt (name : String) : String :=
  let cs := name.data
  let lead := (cs.takeWhile (fun c => c == '.')).length
  let rest := cs.drop lead
  if rest.contains '.' then
    String.mk ('.' :: (rest.reverse.takeWhile (fun c => c != '.')).reverse)
  else ""

/-- The relative path recorded for an uploaded audio file
(`os.path.relpath` of the file written under `uploads/`); the f-string
renders the `audio_id` payload value. -/
def audioUploadPath (audioId : JVal) (ext : String) : String :=
  (match audioId with
   | .str s => "uploads/" ++ s
   | _ => "uploads/audio") ++ ext

/-- The multipart `_audio_upload` record (file content modelled by its
length, which is all the handler inspects before handing the bytes to
the oracle-modelled reasoning call). -/
structure Upload where
  len : ℕ
  filename : String
  mime_type : String

/-- The parsed body of `POST /api/events/crying` together with generated
ids and clock readings.  `bodyOccurredAt` is the parse of a truthy
`occurred_at` string in the body (`none` = absent or falsy, in which case
the handler stores `_iso_now()`; `some none` = a string that does not
parse). -/
structure CryingRequest where
  body : List (String × JVal)
  upload : Option Upload
  bodyOccurredAt : Option (Option IsoTime)
  newEventId : String
  newAudioId : String
  stubVersion : String
  nowT : IsoTime
  nowIso : String

inductive CryingResponse where
  | fail (status : ℕ) (msg : String)
  | ok (event : CareEvent)

/-- The payload dict assembled by `_handle_post_crying` between the
guards and `insert_event` (pop `ai_guidance`, attach `audio_id`, the
optional upload fields, `audio_url`, the base notice and the
`audio_analysis`/`ai` defaults). -/
def assembledCryingPayload (req : CryingRequest) : List (String × JVal) :=
  let body := req.body
  let payload0 :=
    match jgetd body ("payload") with
    | .obj p => p
    | _ => []
  let audioLen : ℕ :=
    match req.upload with
    | some u => u.len
    | none => 0
  let audioMime : String :=
    match req.upload with
    | some u =>
        if u.mime_type = "" then "application/octet-stream" else u.mime_type
    | none => ""
  let p := jerase payload0 ("ai_guidance")
  let audioIdV :=
    (jgetd body ("audio_id")).jor
      ((jgetd p ("audio_id")).jor (.str req.newAudioId))
  let p := jset p ("audio_id") audioIdV
  let p :=
    if audioLen != 0 then
      let ext0 := splitextExt
        (match req.upload with
         | some u => u.filename
         | none => "")
      let ext := if ext0 = "" then ".bin" else ext0
      let p := jset p ("audio_path") (.str (audioUploadPath audioIdV ext))
      jset p ("audio_mime_type") (.str audioMime)
    else p
  let p := jset p ("audio_url")
    ((jgetd body ("audio_url")).jor (jgetd p ("audio_url")))
  let p := jset p ("notice") (.str (composeNotice false false))
  let p :=
    if jhasKey p ("audio_analysis") then p
    else jset p ("audio_analysis")
      ((jgetd p ("ai")).jor (stubGeminiResult req.stubVersion))
  if jhasKey p ("ai") then p
  else jset p ("ai") (jgetd p ("audio_analysis"))

/-- The event record `_handle_post_crying` hands to `insert_event`. -/
def assembleCryingEvent (req : CryingRequest) : CareEvent :=
  { id := req.newEventId
    type_ := "crying"
    occurred_at :=
      match req.bodyOccurredAt with
      | some parsed => parsed
      | none => some req.nowT
    source := jgetD req.body ("source") (.str ("device"))
    category := "crying"
    payload := .obj (assembledCryingPayload req)
    tags :=
      match jgetd req.body ("tags") with
      | .arr xs => .arr xs
      | _ => .arr []
    created_at := some req.nowT }

/-- `_handle_post_crying` after the body-shape guard (`body` is a dict).
`none` models an uncaught exception escaping the handler (no 200
response reaches the caller). -/
def handlePostCrying (autoSplit : Bool) (md5Head : String → ℕ)
    (store : EventStore) (recents : List CareEvent)
    (req : CryingRequest) (tOut cOut : ReasonOutcome) :
    Option (EventStore × CryingResponse) :=
  let oversize :=
    match req.upload with
    | some u => u.len != 0 && decide (MAX_AUDIO_BYTES < u.len)
    | none => false
  if oversize then some (store, .fail 413 ("Audio file too large"))
  else
    let event := assembleCryingEvent req
    let store := insertEvent store event
    let assigned :=
      resolveAbVariant autoSplit md5Head (jgetd req.body ("ab_variant"))
        event.id
    match applyReasoningToEvent autoSplit store recents event assigned
        tOut cOut with
    | none => none
    | some (store, event, _, _) => some (store, .ok event)

/-- `_mime_extension(mime_type)`; `none` models `.lower()` raising on a
truthy non-string mime value. -/
def mimeExtension (mime : JVal) : Option String :=
  if mime.truthy then
    match mime with
    | .str s =>
        let m := strLower s
        some (if strContains m ("wav") then ".wav"
          else if strContains m ("webm") then ".webm"
          else if strContains m ("mpeg") || strContains m ("mp3") then ".mp3"
          else if strContains m ("ogg") then ".ogg"
          else if strContains m ("aac") then ".aac"
          else ".bin")
    | _ => none
  else some ".bin"

/-- The parsed body of `POST /api/events/crying/live/start` together with
generated ids and clock readings (same conventions as `CryingRequest`). -/
structure StartRequest where
  body : List (String × JVal)
  bodyOccurredAt : Option (Option IsoTime)
  newStreamId : String
  newEventId : String
  newAudioId : String
  nowT : IsoTime
  nowIso : String

inductive StartResponse where
  | fail (status : ℕ) (msg : String)
  | started (streamId eventId : String)

/-- `_handle_live_start` after the body-shape guard. -/
def handleLiveStart (autoSplit : Bool) (md5Head : String → ℕ)
    (store : EventStore) (streams : LiveStreams) (req : StartRequest) :
    Option (EventStore × LiveStreams × StartResponse) :=
  match cleanupStaleLiveStreams req.nowT.instant req.nowIso store streams with
  | none => none
  | some (store, streams) =>
  let payload0 :=
    match jgetd req.body ("payload") with
    | .obj p => p
    | _ => []
  let tags : JVal :=
    match jgetd req.body ("tags") with
    | .arr xs => .arr xs
    | _ => .arr []
  let audioIdV :=
    (jgetd req.body ("audio_id")).jor
      ((jgetd payload0 ("audio_id")).jor (.str req.newAudioId))
  let mimeV := (jgetd req.body ("audio_mime_type")).jor (.str ("audio/webm"))
  match mimeExtension mimeV with
  | none => none
  | some ext =>
  let livePath := "uploads/live/" ++ req.newStreamId ++ ext
  let assigned :=
    resolveAbVariant autoSplit md5Head (jgetd req.body ("ab_variant"))
      req.newEventId
  let streaming : List (String × JVal) :=
    [(("stream_id"), .str req.newStreamId),
     (("status"), .str ("streaming")),
     (("started_at"), .str req.nowIso),
     (("last_chunk_at"), .null),
     (("chunks_received"), .num 0),
     (("partial_every_chunks"), .num (LIVE_PARTIAL_EVERY_CHUNKS : ℚ)),
     (("partial_updates"), .arr []),
     (("assigned_variant"), .str assigned)]
  let p := jerase payload0 ("ai_guidance")
  let p := jset p ("audio_id") audioIdV
  let p := jset p ("audio_mime_type") mimeV
  let p := jset p ("audio_path") (.str livePath)
  let p := jset p ("notice") (.str (composeNotice false false))
  let p := jset p ("streaming") (.obj streaming)
  let event : CareEvent :=
    { id := req.newEventId
      type_ := "crying"
      occurred_at :=
        match req.bodyOccurredAt with
        | some parsed => parsed
        | none => some req.nowT
      source := jgetD req.body ("source") (.str ("device"))
      category := "crying"
      payload := .obj p
      tags := tags
      created_at := some req.nowT }
  let store := insertEvent store event
  let streams := putStream streams req.newStreamId
    { event_id := req.newEventId
      file_path := livePath
      audio_mime_type := mimeV
      chunk_count := 0
      total_bytes := 0
      last_activity := req.nowT.instant
      assigned_variant := assigned
      fileLen := 0 }
  some (store, streams, .started req.newStreamId req.newEventId)

inductive ChunkResponse where
  | fail (status : ℕ) (msg : String)
  | buffering (chunksReceived nextPartialIn : ℕ)
  | partialReady (partialGuidance aiMeta : JVal) (stale : Bool)

/-- Result of a chunk upload.  `partialCall = some n` records that the
handler invoked `run_reasoning` on the full accumulated buffer of `n`
bytes; `result = none` models an uncaught exception. -/
structure ChunkOutput where
  partialCall : Option ℕ
  result : Option (EventStore × LiveStreams × ChunkResponse)

/-- Python `xs[-n:]`. -/
def takeLast (n : ℕ) (xs : List JVal) : List JVal := xs.drop (xs.length - n)

/-- The `partial_guidance` summary built from a successful partial
enrichment: winning cause, first recommended action, confidence tier. -/
def partialGuidanceOf (gkvs : List (String × JVal)) : JVal :=
  .obj [(("most_likely_cause"), jgetD gkvs ("most_likely_cause") (.obj [])),
        (("recommended_next_action"),
          match jgetd gkvs ("recommended_actions") with
          | .arr (first :: _) =>
              match first with
              | .obj fkvs => jgetd fkvs ("action")
              | _ => .null
          | _ => .null),
        (("confidence_level"), jgetd gkvs ("confidence_level"))]

/-- The `streaming` sub-object written by a successful partial pass:
append the new history entry, truncate to the last 20, record the last
partial guidance. -/
def partialStreamingUpdate (nowIso : String) (count : ℕ)
    (skvs0 : List (String × JVal)) (pg : JVal) (pm : List (String × JVal)) :
    List (String × JVal) :=
  let updates :=
    match jgetd skvs0 ("partial_updates") with
    | .arr xs => xs
    | _ => []
  let updates := updates ++ [JVal.obj
    [(("at"), .str nowIso), (("chunks_received"), .num (count : ℚ)),
     (("partial_guidance"), pg), (("ai_meta"), .obj pm)]]
  jset (jset skvs0 ("partial_updates") (.arr (takeLast 20 updates)))
    ("last_partial_guidance") pg

/-- The partial-inference tail of `_handle_live_chunk` (reached on every
K-th chunk): the buffer has already been appended and the counters
committed; `outcome` is the partial `run_reasoning` call on the full
accumulated buffer. -/
def handleLiveChunkPartial (nowIso : String) (store : EventStore)
    (streams : LiveStreams) (st : StreamState) (ev : CareEvent)
    (outcome : ReasonOutcome) : ChunkOutput :=
  let call := some st.fileLen
  match outcome with
  | .ok enr =>
      match enr.ai_guidance.asObj with
      | none => ⟨call, none⟩
      | some gkvs =>
        let partialGuidance : JVal := partialGuidanceOf gkvs
        match enr.ai_meta.asObj with
        | none => ⟨call, none⟩
        | some mkvs =>
          let pm := jset mkvs ("request_mode") (.str ("multimodal_partial"))
          match ev.payload.asObj with
          | none => ⟨call, none⟩
          | some base =>
            let skvs :=
              match jgetd base ("streaming") with
              | .obj s => s
              | _ => []
            let skvs := partialStreamingUpdate nowIso st.chunk_count skvs
              partialGuidance pm
            let p := jset base ("streaming") (.obj skvs)
            let p := jset p ("audio_analysis") enr.audio_analysis
            let p := jset p ("ai_meta") (.obj pm)
            let store := updateEventPayload store ev.id (.obj p)
            ⟨call, some (store, streams,
              .partialReady partialGuidance (.obj pm) false)⟩
  | .err e =>
      match ev.payload.asObj with
      | none => ⟨call, none⟩
      | some base =>
        let skvs :=
          match jgetd base ("streaming") with
          | .obj s => s
          | _ => []
        let skvs := jset skvs ("last_partial_error") e
        let p := jset base ("streaming") (.obj skvs)
        let p :=
          match e with
          | .obj ekvs =>
              match jgetd ekvs ("ai_meta") with
              | .obj am =>
                  jset p ("ai_meta")
                    (.obj (jset am ("request_mode") (.str ("multimodal_partial"))))
              | _ => p
          | _ => p
        let store := updateEventPayload store ev.id (.obj p)
        ⟨call, some (store, streams,
          .partialReady (jgetd skvs ("last_partial_guidance"))
            (jgetD p ("ai_meta") (.obj [])) true)⟩

/-- `_handle_live_chunk` after transport parsing: `streamId`, `chunk` and
`mimeField` are the decoded multipart fields (the form parser always
yields `bytes` content for a file field, so the `isinstance(..., bytes)`
guard of the source is always satisfied here). -/
def handleLiveChunk (now : ℤ) (nowIso : String)
    (store : EventStore) (streams : LiveStreams)
    (isMultipart : Bool) (streamId : Option String)
    (chunk : Option Upload) (mimeField : Option String)
    (outcome : ReasonOutcome) : ChunkOutput :=
  match cleanupStaleLiveStreams now nowIso store streams with
  | none => ⟨none, none⟩
  | some (store, streams) =>
    if !isMultipart then
      ⟨none, some (store, streams, .fail 400 ("Use multipart/form-data"))⟩
    else
      match streamId with
      | none => ⟨none, some (store, streams, .fail 400 ("stream_id is required"))⟩
      | some sid =>
        if sid = "" then
          ⟨none, some (store, streams, .fail 400 ("stream_id is required"))⟩
        else
          match lookupStream streams sid with
          | none => ⟨none, some (store, streams, .fail 404 ("Stream not found"))⟩
          | some st =>
            match chunk with
            | none =>
                ⟨none, some (store, streams, .fail 400 ("Audio chunk is required"))⟩
            | some ch =>
              if LIVE_CHUNK_MAX_BYTES < ch.len then
                ⟨none, some (store, streams, .fail 413 ("Chunk too large"))⟩
              else
                match getEventById store st.event_id with
                | none =>
                    ⟨none, some (store, removeStream streams sid,
                      .fail 404 ("Event not found for stream"))⟩
                | some ev =>
                  if st.file_path = "" then
                    ⟨none, some (store, streams,
                      .fail 500 ("Stream file path missing"))⟩
                  else
                    let st : StreamState :=
                      { st with
                        fileLen := st.fileLen + ch.len
                        chunk_count := st.chunk_count + 1
                        total_bytes := st.total_bytes + ch.len
                        last_activity := now
                        audio_mime_type :=
                          match mimeField with
                          | some m =>
                              if m ≠ "" then .str m else st.audio_mime_type
                          | none => st.audio_mime_type }
                    let streams := putStream streams sid st
                    match ev.payload.asObj with
                    | none => ⟨none, none⟩
                    | some base =>
                      let skvs :=
                        match jgetd base ("streaming") with
                        | .obj s => s
                        | _ => []
                      let skvs := jset skvs ("status") (.str ("streaming"))
                      let skvs := jset skvs ("last_chunk_at") (.str nowIso)
                      let skvs := jset skvs ("chunks_received")
                        (.num (st.chunk_count : ℚ))
                      let skvs := jset skvs ("total_bytes")
                        (.num (st.total_bytes : ℚ))
                      let p := jset base ("streaming") (.obj skvs)
                      let store := updateEventPayload store ev.id (.obj p)
                      let ev := { ev with payload := .obj p }
                      if st.chunk_count % LIVE_PARTIAL_EVERY_CHUNKS ≠ 0 then
                        ⟨none, some (store, streams,
                          .buffering st.chunk_count
                            (LIVE_PARTIAL_EVERY_CHUNKS
                              - st.chunk_count % LIVE_PARTIAL_EVERY_CHUNKS))⟩
                      else
                        handleLiveChunkPartial nowIso store streams st ev outcome

/-- Observer: a field of the `streaming` sub-object stored on an
event's payload. -/
def eventStreamingField (store : EventStore) (eid field : String) :
    Option JVal :=
  match getEventById store eid with
  | some e =>
      match e.payload with
      | .obj pkvs =>
          match jget pkvs ("streaming") with
          | some (.obj skvs) => jget skvs field
          | _ => none
      | _ => none
  | none => none

/-- Observer: a top-level field of an event's payload. -/
def eventPayloadField (store : EventStore) (eid field : String) :
    Option JVal :=
  match getEventById store eid with
  | some e =>
      match e.payload with
      | .obj pkvs => jget pkvs field
      | _ => none
  | none => none

/-- Observer: the `streaming.partial_updates` value stored on an event
(used to state the history-bound invariant). -/
def eventPartialUpdates (store : EventStore) (eid : String) : Option JVal :=
  match getEventById store eid with
  | some e =>
      match e.payload with
      | .obj pkvs =>
          match jget pkvs ("streaming") with
          | some (.obj skvs) => jget skvs ("partial_updates")
          | _ => none
      | _ => none
  | none => none

inductive FinishResponse where
  | fail (status : ℕ) (msg : String)
  | completed (event : CareEvent)

/-- `_handle_live_finish` after the body-shape guard.  The accumulated
buffer is read back and handed to the final reasoning pass, which runs
through the experiment controller: `tOut`/`cOut` are its oracle
outcomes. -/
def handleLiveFinish (autoSplit : Bool) (now : ℤ) (nowIso : String)
    (store : EventStore) (streams : LiveStreams)
    (streamId : Option String) (recents : List CareEvent)
    (tOut cOut : ReasonOutcome) :
    Option (EventStore × LiveStreams × FinishResponse) :=
  match cleanupStaleLiveStreams now nowIso store streams with
  | none => none
  | some (store, streams) =>
  match streamId with
  | none => some (store, streams, .fail 400 ("stream_id is required"))
  | some sid =>
    if sid = "" then some (store, streams, .fail 400 ("stream_id is required"))
    else
      match lookupStream streams sid with
      | none => some (store, streams, .fail 404 ("Stream not found"))
      | some st =>
        match getEventById store st.event_id with
        | none =>
            some (store, removeStream streams sid,
              .fail 404 ("Event not found for stream"))
        | some ev =>
          let assigned :=
            if st.assigned_variant = "" then "treatment" else st.assigned_variant
          match applyReasoningToEvent autoSplit store recents ev assigned tOut cOut with
          | none => none
          | some (store, ev, success, err) =>
          match ev.payload.asObj with
          | none => none
          | some base =>
          let skvs :=
            match jgetd base ("streaming") with
            | .obj s => s
            | _ => []
          let skvs := jset skvs ("status") (.str ("completed"))
          let skvs := jset skvs ("ended_at") (.str nowIso)
          let skvs := jset skvs ("chunks_received") (.num (st.chunk_count : ℚ))
          let skvs := jset skvs ("total_bytes") (.num (st.total_bytes : ℚ))
          let skvs :=
            if success then skvs
            else jset skvs ("final_error") (err.getD .null)
          let p := jset base ("streaming") (.obj skvs)
          let store := updateEventPayload store ev.id (.obj p)
          let ev := { ev with payload := .obj p }
          let streams := removeStream streams sid
          some (store, streams, .completed ev)

/-! ## Metrics aggregator (`_build_metrics`, `_median`) -/

/-- Model of Python `round(x, 2)` on the exact rational value. -/
def roundTo2 (q : ℚ) : ℚ := (roundHalfEven (q * 100) : ℚ) / 100

/-- `statistics.median` on a non-empty list: sort, then the middle
element (odd length) or the mean of the two middle elements (even
length). -/
def statMedian (xs : List ℚ) : ℚ :=
  let s := xs.mergeSort (fun a b => decide (a ≤ b))
  if xs.length % 2 = 1 then s.getD (xs.length / 2) 0
  else (s.getD (xs.length / 2 - 1) 0 + s.getD (xs.length / 2) 0) / 2

/-- `_median(values)`: `None` on an empty list, otherwise the median. -/
def medianQ (xs : List ℚ) : Option ℚ :=
  if xs.isEmpty then none else some (statMedian xs)

/-- One accepted iteration of the `_build_metrics` loop: produced exactly
when the event has a dict payload carrying `user_feedback` with a boolean
`helpful`.  Records the numeric `resolved_in_minutes` when present, the
limited-context flag (`ai_guidance` dict with truthy `uncertainty_note`)
and the experiment arm (`shown_variant or assigned_variant`). -/
structure FeedbackRow where
  helpful : Bool
  resolved : Option ℚ
  limitedContext : Bool
  variant : JVal

def feedbackRowOf (e : CareEvent) : Option FeedbackRow := do
  let pkvs ← e.payload.asObj
  let fkvs ← (jgetd pkvs ("user_feedback")).asObj
  let helpful ←
    match jgetd fkvs ("helpful") with
    | .jbool b => some b
    | _ => none
  let resolved := (jgetd fkvs ("resolved_in_minutes")).pyNum?
  let limited :=
    match jgetd pkvs ("ai_guidance") with
    | .obj gkvs => (jgetd gkvs ("uncertainty_note")).truthy
    | _ => false
  let variant :=
    match jgetd pkvs ("ab_test") with
    | .obj akvs =>
        (jgetd akvs ("shown_variant")).jor (jgetd akvs ("assigned_variant"))
    | _ => JVal.null
  some ⟨helpful, resolved, limited, variant⟩

/-- `round(hits / total, 4)` guarded by `total > 0`, else `None`. -/
def rateOf (hits total : ℕ) : Option ℚ :=
  if 0 < total then some (roundTo4 ((hits : ℚ) / (total : ℚ))) else none

structure SliceMetrics where
  samples : ℕ
  helpful_rate : Option ℚ
  median_resolved_minutes : Option ℚ
deriving DecidableEq

/-- The `(total, helpful, resolved)` counters of one slice of the metrics
loop, assembled into the reported statistics. -/
def sliceOf (rows : List FeedbackRow) : SliceMetrics :=
  { samples := rows.length
    helpful_rate := rateOf (rows.filter (·.helpful)).length rows.length
    median_resolved_minutes := medianQ (rows.filterMap (·.resolved)) }

/-- The metrics object returned by `_build_metrics` (the JSON shape keeps
a `no_context` alias of the `limited_context` slice; each distinct
statistic is modelled once). -/
structure Metrics where
  helpful_rate : Option ℚ
  median_resolved_minutes : Option ℚ
  helpful_rate_uplift : Option ℚ
  median_resolved_minutes_delta : Option ℚ
  with_context : SliceMetrics
  limited_context : SliceMetrics
  ab_treatment : SliceMetrics
  ab_control : SliceMetrics
  ab_helpful_rate_uplift : Option ℚ
  ab_median_resolved_minutes_delta : Option ℚ
  totals_crying_events : ℕ
  totals_feedback_events : ℕ
deriving DecidableEq

/-- `_build_metrics()` over the crying events fetched from the store. -/
def buildMetrics (cryingEvents : List CareEvent) : Metrics :=
  let rows := cryingEvents.filterMap feedbackRowOf
  let overall := sliceOf rows
  let withCtx := sliceOf (rows.filter (fun r => !r.limitedContext))
  let limitedCtx := sliceOf (rows.filter (·.limitedContext))
  let abT := sliceOf (rows.filter (fun r => r.variant.eqStr ("treatment")))
  let abC := sliceOf (rows.filter (fun r => r.variant.eqStr ("control")))
  { helpful_rate := overall.helpful_rate
    median_resolved_minutes := overall.median_resolved_minutes
    helpful_rate_uplift :=
      match withCtx.helpful_rate, limitedCtx.helpful_rate with
      | some a, some b => some (roundTo4 (a - b))
      | _, _ => none
    median_resolved_minutes_delta :=
      match withCtx.median_resolved_minutes, limitedCtx.median_resolved_minutes with
      | some a, some b => some (roundTo2 (b - a))
      | _, _ => none
    with_context := withCtx
    limited_context := limitedCtx
    ab_treatment := abT
    ab_control := abC
    ab_helpful_rate_uplift :=
      match abT.helpful_rate, abC.helpful_rate with
      | some a, some b => some (roundTo4 (a - b))
      | _, _ => none
    ab_median_resolved_minutes_delta :=
      match abT.median_resolved_minutes, abC.median_resolved_minutes with
      | some a, some b => some (roundTo2 (b - a))
      | _, _ => none
    totals_crying_events := cryingEvents.length
    totals_feedback_events := rows.length }

/-! # Theorems -/

/-! ## Rounding bounds -/

theorem roundHalfEven_sub_le (q : ℚ) : |(roundHalfEven q : ℚ) - q| ≤ 1/2 := by
  unfold roundHalfEven
  have h1 : (⌊q⌋ : ℚ) ≤ q := Int.floor_le q
  have h2 : q < ⌊q⌋ + 1 := Int.lt_floor_add_one q
  split
  · rename_i h
    rw [abs_le]
    constructor <;> [linarith; linarith]
  · rename_i h
    push_neg at h
    split
    · rename_i h'
      rw [abs_le]
      push_cast
      constructor <;> [linarith; linarith]
    · rename_i h'
      push_neg at h'
      have : q - (⌊q⌋ : ℚ) = 1/2 := le_antisymm h' h
      split <;>
      · rw [abs_le]
        push_cast
        constructor <;> [linarith; linarith]

theorem roundTo4_sub_le (q : ℚ) : |roundTo4 q - q| ≤ 1/20000 := by
  unfold roundTo4
  have h := roundHalfEven_sub_le (q * 10000)
  have heq : (roundHalfEven (q * 10000) : ℚ) / 10000 - q
      = ((roundHalfEven (q * 10000) : ℚ) - q * 10000) / 10000 := by ring
  rw [heq, abs_div, show |(10000 : ℚ)| = 10000 by norm_num,
    div_le_iff₀ (by norm_num : (0:ℚ) < 10000)]
  linarith

theorem roundTo4_nonneg {q : ℚ} (h : 0 ≤ q) : 0 ≤ roundTo4 q := by
  unfold roundTo4
  have hf : (0:ℤ) ≤ ⌊q * 10000⌋ := Int.floor_nonneg.mpr (by positivity)
  have hr : (0:ℤ) ≤ roundHalfEven (q * 10000) := by
    unfold roundHalfEven
    split
    · exact hf
    · split
      · omega
      · split <;> omega
  exact div_nonneg (by exact_mod_cast hr) (by norm_num)

/-- If four rationals sum to 1 exactly, their 4-decimal roundings sum to
1 within 2·10⁻⁴. -/
theorem roundTo4_four_sum {a b c d : ℚ} (h : a + b + c + d = 1) :
    |roundTo4 a + roundTo4 b + roundTo4 c + roundTo4 d - 1| ≤ 1/5000 := by
  have ha := abs_le.mp (roundTo4_sub_le a)
  have hb := abs_le.mp (roundTo4_sub_le b)
  have hc := abs_le.mp (roundTo4_sub_le c)
  have hd := abs_le.mp (roundTo4_sub_le d)
  rw [abs_le]
  constructor <;> [linarith; linarith]

theorem PriorDist.sum_map (f : ℚ → ℚ) (p : PriorDist) :
    (PriorDist.map f p).sum
      = f p.hunger + f p.discomfort + f p.emotional_need + f p.unknown := rfl

/-- The four shares `v / p.sum` sum to exactly 1 when the total is
non-zero. -/
theorem PriorDist.shares_sum {p : PriorDist} (h : p.sum ≠ 0) :
    p.hunger / p.sum + p.discomfort / p.sum + p.emotional_need / p.sum
      + p.unknown / p.sum = 1 := by
  have : p.hunger / p.sum + p.discomfort / p.sum + p.emotional_need / p.sum
      + p.unknown / p.sum = p.sum / p.sum := by
    unfold PriorDist.sum
    ring
  rw [this, div_self h]

/-- `_normalize` output sums to 1 within 2·10⁻⁴ whenever the input total
is positive. -/
theorem normalizePriors_sum_close {p : PriorDist} (h : 0 < p.sum) :
    |(normalizePriors p).sum - 1| ≤ 1/5000 := by
  unfold normalizePriors
  rw [if_neg (by linarith)]
  rw [PriorDist.sum_map]
  exact roundTo4_four_sum (PriorDist.shares_sum (ne_of_gt h))

/-! ## C5: inference normalization -/

/-- C5 counterexample: the inference `{hunger: 1, discomfort: 1,
emotional_need: 1, unknown: 0}` normalizes to three copies of `0.3333`
plus `0`, whose sum `0.9999` is not within `1e-6` of `1.0`, refuting the
claimed tolerance. -/
theorem C5_counterexample :
    (normalizeInference (some ⟨some 1, some 1, some 1, some 0⟩)).sum
        = 9999/10000
    ∧ ¬ (|(normalizeInference (some ⟨some 1, some 1, some 1, some 0⟩)).sum - 1|
        ≤ 1/1000000) := by
  have hval : normalizeInference (some ⟨some 1, some 1, some 1, some 0⟩)
      = ⟨3333/10000, 3333/10000, 3333/10000, 0⟩ := by
    unfold normalizeInference inferenceRaw pickInference PriorDist.sum
      PriorDist.map roundTo4 roundHalfEven
    norm_num
  rw [hval]
  constructor
  · norm_num [PriorDist.sum]
  · rw [show (PriorDist.sum ⟨3333/10000, 3333/10000, 3333/10000, 0⟩ : ℚ)
        = 9999/10000 by norm_num [PriorDist.sum]]
    rw [show (9999/10000 : ℚ) - 1 = -(1/10000) by norm_num, abs_neg,
      abs_of_pos (by norm_num : (0:ℚ) < 1/10000)]
    norm_num

/-- C5 (amended): for every input inference mapping, normalization
produces a distribution over the four cause labels whose values sum to
1.0 within 2·10⁻⁴ (each of the four shares is rounded to 4 decimals, so
the sum can differ from 1 by up to 4·5·10⁻⁵; the claimed 1e-6 tolerance
does not hold); and for any input in which every value across the four
labels is absent, non-numeric, zero or negative, the result is exactly
`{hunger: 0, discomfort: 0, emotional_need: 0, unknown: 1.0}`. -/
theorem C5_normalize_inference (inference : Option LabelJson) :
    |(normalizeInference inference).sum - 1| ≤ 1/5000
    ∧ (allNonPosInference inference = true →
        normalizeInference inference = ⟨0, 0, 0, 1⟩) := by
  constructor
  · unfold normalizeInference
    split
    · show |(PriorDist.sum ⟨0, 0, 0, 1⟩) - 1| ≤ 1/5000
      norm_num [PriorDist.sum]
    · rename_i hpos
      push_neg at hpos
      rw [PriorDist.sum_map]
      exact roundTo4_four_sum (PriorDist.shares_sum (ne_of_gt hpos))
  · intro hall
    unfold normalizeInference
    rw [if_pos]
    cases inference with
    | none => simp [inferenceRaw, PriorDist.sum]
    | some f =>
        unfold allNonPosInference at hall
        simp only [Bool.and_eq_true, decide_eq_true_eq] at hall
        unfold inferenceRaw PriorDist.sum pickInference
        obtain ⟨⟨⟨h1, h2⟩, h3⟩, h4⟩ := hall
        cases hh : f.hunger <;> cases hd : f.discomfort <;>
          cases he : f.emotional_need <;> cases hu : f.unknown <;>
          simp_all <;> split_ifs <;> linarith

/-- Witness for `C5_normalize_inference`: the all-non-positive input
`{hunger: 0, discomfort: -1, unknown: 0}` (with a non-numeric
`emotional_need`) collapses to `{unknown: 1.0}`. -/
theorem C5_witness :
    allNonPosInference (some ⟨some 0, some (-1), none, some 0⟩) = true
    ∧ normalizeInference (some ⟨some 0, some (-1), none, some 0⟩)
        = ⟨0, 0, 0, 1⟩ :=
  ⟨by norm_num [allNonPosInference],
   (C5_normalize_inference (some ⟨some 0, some (-1), none, some 0⟩)).2
     (by norm_num [allNonPosInference])⟩

/-! ## Dict operation lemmas -/

theorem jget_jset_self (l : List (String × JVal)) (k : String) (v : JVal) :
    jget (jset l k v) k = some v := by
  induction l with
  | nil => simp [jset, jget]
  | cons hd tl ih =>
      obtain ⟨k', w⟩ := hd
      by_cases h : k' = k <;> simp [jset, jget, h, ih]

theorem jget_jset_other (l : List (String × JVal)) (k k' : String) (v : JVal)
    (h : k ≠ k') : jget (jset l k v) k' = jget l k' := by
  induction l with
  | nil => simp [jset, jget, h]
  | cons hd tl ih =>
      obtain ⟨k0, w⟩ := hd
      by_cases h0 : k0 = k
      · subst h0
        simp [jset, jget, h]
      · simp only [jset, if_neg h0, jget]
        by_cases h1 : k0 = k' <;> simp [h1, ih]

theorem jget_jerase_other (l : List (String × JVal)) (k k' : String)
    (h : k ≠ k') : jget (jerase l k) k' = jget l k' := by
  induction l with
  | nil => simp [jerase]
  | cons hd tl ih =>
      obtain ⟨k0, w⟩ := hd
      by_cases h0 : k0 = k
      · subst h0
        simp [jerase, jget, h]
      · simp only [jerase, if_neg h0, jget]
        by_cases h1 : k0 = k' <;> simp [h1, ih]

/-! ## Confidence tier characterizations -/

theorem deriveConfidenceLevel_high (b : ℚ) :
    deriveConfidenceLevel b = "high" ↔ 3/4 ≤ b := by
  unfold deriveConfidenceLevel
  split_ifs with h1 h2 <;> simp_all <;> linarith

theorem deriveConfidenceLevel_medium (b : ℚ) :
    deriveConfidenceLevel b = "medium" ↔ (9/20 ≤ b ∧ b < 3/4) := by
  unfold deriveConfidenceLevel
  split_ifs with h1 h2 <;> constructor <;> intro h <;> simp_all <;> linarith

theorem deriveConfidenceLevel_low (b : ℚ) :
    deriveConfidenceLevel b = "low" ↔ b < 9/20 := by
  unfold deriveConfidenceLevel
  split_ifs with h1 h2 <;> constructor <;> intro h <;> simp_all <;> linarith

/-! ## C8: prior blending and confidence tiering -/

/-- C8: for every validated guidance whose `most_likely_cause` label has
a prior in `[0,1]` in the supplied learned priors and whose model
confidence is in `[0,1]`, finalization sets the confidence to
`0.7·model_confidence + 0.3·prior` rounded to 4 decimals, records the
blend strategy in `prior_weight`, and derives `confidence_level` as
`high` iff that blended confidence is `≥ 0.75`, `medium` iff it lies in
`[0.45, 0.75)`, and `low` otherwise. -/
theorem C8_blend_and_tiering
    (gkvs mkvs pkvs : List (String × JVal)) (lbl : String) (p c : ℚ)
    (summary : RecentSummary) (recents : List CareEvent)
    (hm : jget gkvs ("most_likely_cause") = some (.obj mkvs))
    (hl : jget mkvs ("label") = some (.str lbl))
    (hc : jget mkvs ("confidence") = some (.num c))
    (hp : jget pkvs lbl = some (.num p))
    (hp0 : 0 ≤ p) (hp1 : p ≤ 1) (hc0 : 0 ≤ c) (hc1 : c ≤ 1) :
    ∃ rkvs mkvs2,
      finalizeGuidance (.obj gkvs) summary recents (.obj pkvs)
          = some (.obj rkvs)
      ∧ jget rkvs ("most_likely_cause") = some (.obj mkvs2)
      ∧ jget mkvs2 ("confidence")
          = some (.num (roundTo4 (7/10 * c + 3/10 * p)))
      ∧ jget rkvs ("prior_weight") = some (.obj
          [(("label"), .str lbl), (("prior"), .num p),
           (("strategy"), .str ("0.7_model + 0.3_feedback_prior"))])
      ∧ (jget rkvs ("confidence_level") = some (.str ("high"))
          ↔ 3/4 ≤ roundTo4 (7/10 * c + 3/10 * p))
      ∧ (jget rkvs ("confidence_level") = some (.str ("medium"))
          ↔ (9/20 ≤ roundTo4 (7/10 * c + 3/10 * p)
              ∧ roundTo4 (7/10 * c + 3/10 * p) < 3/4))
      ∧ (jget rkvs ("confidence_level") = some (.str ("low"))
          ↔ roundTo4 (7/10 * c + 3/10 * p) < 9/20) := by
  have hPp : isProbabilityJ (JVal.num p) = true := by
    simp only [isProbabilityJ, JVal.pyNum?, Bool.and_eq_true, decide_eq_true_eq]
    exact ⟨hp0, hp1⟩
  have hPc : isProbabilityJ (JVal.num c) = true := by
    simp only [isProbabilityJ, JVal.pyNum?, Bool.and_eq_true, decide_eq_true_eq]
    exact ⟨hc0, hc1⟩
  have hblend : applyPriorBlend (.obj gkvs) (.obj pkvs)
      = some (.obj (jset (jset gkvs ("most_likely_cause")
            (.obj (jset mkvs ("confidence")
              (.num (roundTo4 (7/10 * c + 3/10 * p))))))
          ("prior_weight") (.obj
            [(("label"), .str lbl), (("prior"), .num p),
             (("strategy"), .str ("0.7_model + 0.3_feedback_prior"))]))) := by
    unfold applyPriorBlend priorLookup
    simp only [jgetd, hm, Option.getD_some, hl, hp, hc, hPp, hPc,
      Bool.and_self, if_true, JVal.pyNum?, Option.getD_some]
  set b := roundTo4 (7/10 * c + 3/10 * p) with hbdef
  set mkvs2 := jset mkvs ("confidence") (.num b) with hm2def
  set r1 := jset (jset gkvs ("most_likely_cause") (.obj mkvs2))
      ("prior_weight") (.obj
        [(("label"), .str lbl), (("prior"), .num p),
         (("strategy"), .str ("0.7_model + 0.3_feedback_prior"))]) with hr1def
  have hr1m : jget r1 ("most_likely_cause") = some (.obj mkvs2) := by
    rw [hr1def, jget_jset_other _ _ _ _ (by decide), jget_jset_self]
  have hr1conf : jget mkvs2 ("confidence") = some (.num b) := by
    rw [hm2def, jget_jset_self]
  set r2 := jset r1 ("confidence_level") (.str (deriveConfidenceLevel b))
    with hr2def
  set rF := (if hasLimitedContext summary recents then
        jset r2 ("uncertainty_note")
          (.str ("Limited recent care data available"))
      else jerase r2 ("uncertainty_note")) with hrFdef
  have hfin : finalizeGuidance (.obj gkvs) summary recents (.obj pkvs)
      = some (.obj rF) := by
    unfold finalizeGuidance
    rw [hblend]
    simp only [JVal.asObj, jgetd, hr1m, Option.getD_some, hr1conf,
      JVal.pyNum?]
  have hrF : ∀ k, k ≠ ("uncertainty_note") → jget rF k = jget r2 k := by
    intro k hk
    by_cases hctx : hasLimitedContext summary recents
    · rw [hrFdef, if_pos hctx]
      exact jget_jset_other _ _ _ _ (Ne.symm hk)
    · rw [hrFdef, if_neg hctx]
      exact jget_jerase_other _ _ _ (Ne.symm hk)
  have hlev : jget rF ("confidence_level")
      = some (.str (deriveConfidenceLevel b)) := by
    rw [hrF _ (by decide), hr2def, jget_jset_self]
  refine ⟨rF, mkvs2, hfin, ?_, hr1conf, ?_, ?_, ?_, ?_⟩
  · rw [hrF _ (by decide), hr2def, jget_jset_other _ _ _ _ (by decide)]
    exact hr1m
  · rw [hrF _ (by decide), hr2def, jget_jset_other _ _ _ _ (by decide),
      hr1def, jget_jset_self]
  · rw [hlev]
    simp only [Option.some.injEq, JVal.str.injEq]
    exact deriveConfidenceLevel_high b
  · rw [hlev]
    simp only [Option.some.injEq, JVal.str.injEq]
    exact deriveConfidenceLevel_medium b
  · rw [hlev]
    simp only [Option.some.injEq, JVal.str.injEq]
    exact deriveConfidenceLevel_low b

/-- Witness for `C8_blend_and_tiering`: label `hunger`, model confidence
`0.6`, learned prior `0.5`; the blended confidence is
`round(0.7·0.6 + 0.3·0.5, 4) = 0.57`, tier `medium`. -/
theorem C8_witness :
    ∃ rkvs mkvs2,
      finalizeGuidance
          (.obj [(("most_likely_cause"), .obj
              [(("label"), .str ("hunger")), (("confidence"), .num (3/5)),
               (("reasoning"), .str ("pattern"))]),
            (("alternative_causes"), .arr []),
            (("recommended_actions"), .arr []),
            (("caregiver_notice"), .str ("note"))])
          ⟨none, none, none, none⟩ [] (.obj [(("hunger"), .num (1/2))])
        = some (.obj rkvs)
      ∧ jget rkvs ("most_likely_cause") = some (.obj mkvs2)
      ∧ jget mkvs2 ("confidence")
          = some (.num (roundTo4 (7/10 * (3/5) + 3/10 * (1/2))))
      ∧ jget rkvs ("prior_weight") = some (.obj
          [(("label"), .str ("hunger")), (("prior"), .num (1/2)),
           (("strategy"), .str ("0.7_model + 0.3_feedback_prior"))])
      ∧ (jget rkvs ("confidence_level") = some (.str ("high"))
          ↔ 3/4 ≤ roundTo4 (7/10 * (3/5) + 3/10 * (1/2)))
      ∧ (jget rkvs ("confidence_level") = some (.str ("medium"))
          ↔ (9/20 ≤ roundTo4 (7/10 * (3/5) + 3/10 * (1/2))
              ∧ roundTo4 (7/10 * (3/5) + 3/10 * (1/2)) < 3/4))
      ∧ (jget rkvs ("confidence_level") = some (.str ("low"))
          ↔ roundTo4 (7/10 * (3/5) + 3/10 * (1/2)) < 9/20) :=
  C8_blend_and_tiering
    [(("most_likely_cause"), .obj
        [(("label"), .str ("hunger")), (("confidence"), .num (3/5)),
         (("reasoning"), .str ("pattern"))]),
     (("alternative_causes"), .arr []),
     (("recommended_actions"), .arr []),
     (("caregiver_notice"), .str ("note"))]
    [(("label"), .str ("hunger")), (("confidence"), .num (3/5)),
     (("reasoning"), .str ("pattern"))]
    [(("hunger"), .num (1/2))]
    ("hunger") (1/2) (3/5) ⟨none, none, none, none⟩ []
    rfl rfl rfl rfl (by norm_num) (by norm_num) (by norm_num) (by norm_num)

/-! ## C6: prior-store feedback updates -/

theorem mergePick_nonneg (v : Option ℚ) : 0 ≤ mergePick v (1/4) := by
  unfold mergePick
  cases v with
  | none => norm_num
  | some x => exact le_max_left 0 x

theorem mergePriorValues_nonneg (src : Option LabelJson) :
    (mergePriorValues src).Nonneg := by
  unfold mergePriorValues PriorDist.Nonneg
  cases src with
  | none => norm_num [DEFAULT_PRIORS]
  | some f =>
      exact ⟨mergePick_nonneg _, mergePick_nonneg _, mergePick_nonneg _,
        mergePick_nonneg _⟩

theorem normalizePriors_nonneg {p : PriorDist} (hn : p.Nonneg) :
    (normalizePriors p).Nonneg := by
  obtain ⟨h1, h2, h3, h4⟩ := hn
  unfold normalizePriors
  split
  · norm_num [DEFAULT_PRIORS, PriorDist.Nonneg]
  · rename_i h
    push_neg at h
    exact ⟨roundTo4_nonneg (div_nonneg h1 h.le),
      roundTo4_nonneg (div_nonneg h2 h.le),
      roundTo4_nonneg (div_nonneg h3 h.le),
      roundTo4_nonneg (div_nonneg h4 h.le)⟩

theorem PriorDist.set_sum_pos {p : PriorDist} (hn : p.Nonneg) (l : CauseLabel)
    {v : ℚ} (hv : 0 < v) : 0 < (p.set l v).sum := by
  obtain ⟨h1, h2, h3, h4⟩ := hn
  cases l <;> simp [PriorDist.set, PriorDist.sum] <;> linarith

/-- C6 (amended): for every accepted prior-store update (boolean
`helpful`, recognized `most_likely_cause` label), the update applies
`delta = +0.05` if helpful else `-0.05` to that label in the normalized
merge of the event's time-bucket distribution, clamps **the updated
label's value** to `[0.05, 0.9]` (the other labels are not re-clamped),
renormalizes the whole bucket distribution — each share rounded to 4
decimals, so the renormalized values sum to 1 within 2·10⁻⁴ rather than
exactly — persists it to the bucketed store and the legacy flat
snapshot, and returns the audit record
`{label, bucket, helpful, delta, before, after}`. -/
theorem C6_prior_update (data : MemoryData) (event : CareEvent)
    (fkvs pkvs gkvs mkvs : List (String × JVal)) (b : Bool) (lbl : CauseLabel)
    (hh : jgetd fkvs ("helpful") = .jbool b)
    (hp : event.payload = .obj pkvs)
    (hg : jgetd pkvs ("ai_guidance") = .obj gkvs)
    (hm : jgetd gkvs ("most_likely_cause") = .obj mkvs)
    (hl : parseCauseLabel (jgetd mkvs ("label")) = some lbl) :
    (updateReasoningPriors data event (.obj fkvs)
      = some
        ({ reasoning_priors_buckets := some (fun bk =>
              if bk = timeBucket event.occurred_at
              then some (updatedBucketDist data (timeBucket event.occurred_at)
                  lbl b).2.toLabelJson
              else memoryBucketsF data bk),
           reasoning_priors := some (updatedBucketDist data
              (timeBucket event.occurred_at) lbl b).2.toLabelJson },
         { updated_label := lbl, time_bucket := timeBucket event.occurred_at,
           helpful := b, delta := if b then 1/20 else -(1/20),
           before := (updatedBucketDist data (timeBucket event.occurred_at)
              lbl b).1,
           after := (updatedBucketDist data (timeBucket event.occurred_at)
              lbl b).2 }))
    ∧ (updatedBucketDist data (timeBucket event.occurred_at) lbl b
        = (normalizePriors (mergePriorValues
              (memorySourceBucket data (timeBucket event.occurred_at))),
           normalizePriors ((normalizePriors (mergePriorValues
                (memorySourceBucket data (timeBucket event.occurred_at)))).set
              lbl
              (max (1/20) (min (9/10)
                ((normalizePriors (mergePriorValues (memorySourceBucket data
                    (timeBucket event.occurred_at)))).get lbl
                  + (if b then 1/20 else -(1/20))))))))
    ∧ 1/20 ≤ max (1/20) (min (9/10)
        ((normalizePriors (mergePriorValues (memorySourceBucket data
            (timeBucket event.occurred_at)))).get lbl
          + (if b then 1/20 else -(1/20))))
    ∧ max (1/20) (min (9/10)
        ((normalizePriors (mergePriorValues (memorySourceBucket data
            (timeBucket event.occurred_at)))).get lbl
          + (if b then 1/20 else -(1/20)))) ≤ 9/10
    ∧ |((updatedBucketDist data (timeBucket event.occurred_at) lbl b).2).sum
        - 1| ≤ 1/5000 := by
  have hud : updatedBucketDist data (timeBucket event.occurred_at) lbl b
      = (normalizePriors (mergePriorValues
            (memorySourceBucket data (timeBucket event.occurred_at))),
         normalizePriors ((normalizePriors (mergePriorValues
              (memorySourceBucket data (timeBucket event.occurred_at)))).set
            lbl
            (max (1/20) (min (9/10)
              ((normalizePriors (mergePriorValues (memorySourceBucket data
                  (timeBucket event.occurred_at)))).get lbl
                + (if b then 1/20 else -(1/20))))))) := rfl
  refine ⟨?_, hud, le_max_left _ _,
    max_le (by norm_num) (min_le_left _ _), ?_⟩
  · unfold updateReasoningPriors
    rw [hp]
    simp only [JVal.asObj, hh, hg, hm, hl]
  · rw [hud]
    exact normalizePriors_sum_close
      (PriorDist.set_sum_pos
        (normalizePriors_nonneg (mergePriorValues_nonneg _)) lbl
        (lt_of_lt_of_le (by norm_num) (le_max_left _ _)))

/-- Witness for `C6_prior_update`: helpful feedback on label `hunger`
against an empty memory file, for a noon (day-bucket) event. -/
theorem C6_witness :
    (updateReasoningPriors ⟨none, none⟩
        { id := "evt_c6", type_ := "crying",
          occurred_at := some ⟨12 * 3600, 0⟩, source := .str ("device"),
          category := "crying",
          payload := .obj [(("ai_guidance"), .obj
            [(("most_likely_cause"), .obj [(("label"), .str ("hunger"))])])],
          tags := .arr [], created_at := some ⟨12 * 3600, 0⟩ }
        (.obj [(("helpful"), .jbool true)])).isSome = true
    ∧ |((updatedBucketDist ⟨none, none⟩ (timeBucket (some ⟨12 * 3600, 0⟩))
          CauseLabel.hunger true).2).sum - 1| ≤ 1/5000 := by
  have h := C6_prior_update ⟨none, none⟩
      { id := "evt_c6", type_ := "crying",
        occurred_at := some ⟨12 * 3600, 0⟩, source := .str ("device"),
        category := "crying",
        payload := .obj [(("ai_guidance"), .obj
          [(("most_likely_cause"), .obj [(("label"), .str ("hunger"))])])],
        tags := .arr [], created_at := some ⟨12 * 3600, 0⟩ }
      [(("helpful"), .jbool true)]
      [(("ai_guidance"), .obj
        [(("most_likely_cause"), .obj [(("label"), .str ("hunger"))])])]
      [(("most_likely_cause"), .obj [(("label"), .str ("hunger"))])]
      [(("label"), .str ("hunger"))]
      true CauseLabel.hunger rfl rfl rfl rfl rfl
  refine ⟨?_, h.2.2.2.2⟩
  rw [h.1]
  rfl

/-- C6 counterexample: from the default day bucket, unhelpful feedback on
`hunger` produces the renormalized distribution
`{hunger: 0.2105, others: 0.2632}` whose values sum to `1.0001`, not
exactly `1.0` — the 4-decimal rounding inside `_normalize` breaks the
claimed exact unit sum. -/
theorem C6_counterexample :
    (updateReasoningPriors ⟨none, none⟩
        { id := "evt_c6", type_ := "crying",
          occurred_at := some ⟨12 * 3600, 0⟩, source := .str ("device"),
          category := "crying",
          payload := .obj [(("ai_guidance"), .obj
            [(("most_likely_cause"), .obj [(("label"), .str ("hunger"))])])],
          tags := .arr [], created_at := some ⟨12 * 3600, 0⟩ }
        (.obj [(("helpful"), .jbool false)])).map (fun r => r.2.after.sum)
      = some (10001/10000)
    ∧ ((10001 : ℚ)/10000) ≠ 1 := by
  have hred : updateReasoningPriors ⟨none, none⟩
      { id := "evt_c6", type_ := "crying",
        occurred_at := some ⟨12 * 3600, 0⟩, source := .str ("device"),
        category := "crying",
        payload := .obj [(("ai_guidance"), .obj
          [(("most_likely_cause"), .obj [(("label"), .str ("hunger"))])])],
        tags := .arr [], created_at := some ⟨12 * 3600, 0⟩ }
      (.obj [(("helpful"), .jbool false)])
      = some
        ({ reasoning_priors_buckets := some (fun bk =>
              if bk = Bucket.day
              then some (updatedBucketDist ⟨none, none⟩ Bucket.day
                  CauseLabel.hunger false).2.toLabelJson
              else memoryBucketsF ⟨none, none⟩ bk),
           reasoning_priors := some (updatedBucketDist ⟨none, none⟩ Bucket.day
              CauseLabel.hunger false).2.toLabelJson },
         { updated_label := CauseLabel.hunger, time_bucket := Bucket.day,
           helpful := false, delta := -(1/20),
           before := (updatedBucketDist ⟨none, none⟩ Bucket.day
              CauseLabel.hunger false).1,
           after := (updatedBucketDist ⟨none, none⟩ Bucket.day
              CauseLabel.hunger false).2 }) := rfl
  have hafter : (updatedBucketDist ⟨none, none⟩ Bucket.day
      CauseLabel.hunger false).2
      = ⟨2105/10000, 2632/10000, 2632/10000, 2632/10000⟩ := by
    unfold updatedBucketDist memorySourceBucket memoryBucketsF
      mergePriorValues normalizePriors DEFAULT_PRIORS PriorDist.set
      PriorDist.get PriorDist.sum PriorDist.map roundTo4 roundHalfEven
    norm_num
  constructor
  · rw [hred]
    simp only [Option.map_some, hafter]
    norm_num [PriorDist.sum]
  · norm_num

/-! ## Staleness sweep basics -/

/-- When no registered stream is stale, the sweep is the identity. -/
theorem cleanupStaleLiveStreams_no_stale (now : ℤ) (nowIso : String)
    (store : EventStore) (streams : LiveStreams)
    (h : ∀ p ∈ streams, isStale now p.2 = false) :
    cleanupStaleLiveStreams now nowIso store streams = some (store, streams) := by
  unfold cleanupStaleLiveStreams
  have hfil : streams.filter (fun p => isStale now p.2) = [] := by
    rw [List.filter_eq_nil]
    intro a ha
    simp [h a ha]
  rw [hfil]
  rfl

/-! ## C2: partial-inference cadence -/

/-- Whatever the reasoning outcome, the partial stage always records a
`run_reasoning` call on the full accumulated buffer. -/
theorem handleLiveChunkPartial_call (nowIso : String) (store : EventStore)
    (streams : LiveStreams) (st : StreamState) (ev : CareEvent)
    (outcome : ReasonOutcome) :
    (handleLiveChunkPartial nowIso store streams st ev outcome).partialCall
      = some st.fileLen := by
  unfold handleLiveChunkPartial
  cases outcome <;> (repeat' split) <;> rfl

/-- Reduction of `_handle_live_chunk` on an accepted chunk of a fresh
registry: the guards pass and the handler reaches the cadence branch. -/
theorem handleLiveChunk_accepted_eq
    (now : ℤ) (nowIso : String) (store : EventStore) (streams : LiveStreams)
    (sid : String) (st : StreamState) (ch : Upload) (mimeField : Option String)
    (outcome : ReasonOutcome) (ev : CareEvent) (pkvs : List (String × JVal))
    (hfresh : ∀ p ∈ streams, isStale now p.2 = false)
    (hsid : sid ≠ "")
    (hlook : lookupStream streams sid = some st)
    (hsize : ch.len ≤ LIVE_CHUNK_MAX_BYTES)
    (hev : getEventById store st.event_id = some ev)
    (hpath : st.file_path ≠ "")
    (hpay : ev.payload = .obj pkvs) :
    handleLiveChunk now nowIso store streams true (some sid)
      (some ch) mimeField outcome
      = (let st' : StreamState :=
          { st with
            fileLen := st.fileLen + ch.len
            chunk_count := st.chunk_count + 1
            total_bytes := st.total_bytes + ch.len
            last_activity := now
            audio_mime_type :=
              match mimeField with
              | some m => if m ≠ "" then .str m else st.audio_mime_type
              | none => st.audio_mime_type }
         let streams' := putStream streams sid st'
         let skvs :=
           match jgetd pkvs ("streaming") with
           | .obj s => s
           | _ => []
         let skvs := jset skvs ("status") (.str ("streaming"))
         let skvs := jset skvs ("last_chunk_at") (.str nowIso)
         let skvs := jset skvs ("chunks_received") (.num (st'.chunk_count : ℚ))
         let skvs := jset skvs ("total_bytes") (.num (st'.total_bytes : ℚ))
         let p := jset pkvs ("streaming") (.obj skvs)
         let store' := updateEventPayload store ev.id (.obj p)
         let ev' := { ev with payload := .obj p }
         if st'.chunk_count % LIVE_PARTIAL_EVERY_CHUNKS ≠ 0 then
           ⟨none, some (store', streams',
             .buffering st'.chunk_count
               (LIVE_PARTIAL_EVERY_CHUNKS
                 - st'.chunk_count % LIVE_PARTIAL_EVERY_CHUNKS))⟩
         else
           handleLiveChunkPartial nowIso store' streams' st' ev' outcome) := by
  have hcl := cleanupStaleLiveStreams_no_stale now nowIso store streams hfresh
  unfold handleLiveChunk
  rw [hcl]
  simp only [Bool.not_true, Bool.false_eq_true, if_false, hlook, hev, hpay,
    JVal.asObj, if_neg hsid, if_neg (not_lt.mpr hsize), if_neg hpath]

/-- C2: for every live stream and every accepted chunk, the handler
invokes a partial reasoning call on the full accumulated buffer exactly
when the post-increment chunk count is a multiple of
`LIVE_PARTIAL_EVERY_CHUNKS = 3`, and never otherwise; each non-triggering
chunk is acknowledged with a `buffering` response carrying the chunk
count and the countdown of chunks remaining until the next partial. -/
theorem C2_chunk_cadence
    (now : ℤ) (nowIso : String) (store : EventStore) (streams : LiveStreams)
    (sid : String) (st : StreamState) (ch : Upload) (mimeField : Option String)
    (outcome : ReasonOutcome) (ev : CareEvent) (pkvs : List (String × JVal))
    (hfresh : ∀ p ∈ streams, isStale now p.2 = false)
    (hsid : sid ≠ "")
    (hlook : lookupStream streams sid = some st)
    (hsize : ch.len ≤ LIVE_CHUNK_MAX_BYTES)
    (hev : getEventById store st.event_id = some ev)
    (hpath : st.file_path ≠ "")
    (hpay : ev.payload = .obj pkvs) :
    (handleLiveChunk now nowIso store streams true (some sid) (some ch)
        mimeField outcome).partialCall
      = (if (st.chunk_count + 1) % LIVE_PARTIAL_EVERY_CHUNKS = 0
         then some (st.fileLen + ch.len) else none)
    ∧ ((st.chunk_count + 1) % LIVE_PARTIAL_EVERY_CHUNKS ≠ 0 →
        ∃ store2 streams2,
          (handleLiveChunk now nowIso store streams true (some sid) (some ch)
              mimeField outcome).result
            = some (store2, streams2,
                .buffering (st.chunk_count + 1)
                  (LIVE_PARTIAL_EVERY_CHUNKS
                    - (st.chunk_count + 1) % LIVE_PARTIAL_EVERY_CHUNKS))) := by
  have hred := handleLiveChunk_accepted_eq now nowIso store streams sid st ch
    mimeField outcome ev pkvs hfresh hsid hlook hsize hev hpath hpay
  rw [hred]
  by_cases h3 : (st.chunk_count + 1) % LIVE_PARTIAL_EVERY_CHUNKS = 0
  · refine ⟨?_, fun hcon => absurd h3 hcon⟩
    rw [if_pos h3]
    simp only [ne_eq, h3, not_true_eq_false, if_false]
    exact handleLiveChunkPartial_call _ _ _ _ _ _
  · constructor
    · rw [if_neg h3]
      simp only [ne_eq, h3, not_false_eq_true, if_true]
    · intro _
      simp only [ne_eq, h3, not_false_eq_true, if_true]
      exact ⟨_, _, rfl⟩

/-! ## C10: partial-updates history bound -/

theorem takeLast_length_le (n : ℕ) (xs : List JVal) :
    (takeLast n xs).length ≤ n := by
  unfold takeLast
  rw [List.length_drop]
  omega

theorem getEventById_id {store : EventStore} {eid : String} {e : CareEvent}
    (h : getEventById store eid = some e) : e.id = eid := by
  unfold getEventById at h
  have := List.find?_some h
  simpa using this

theorem getEventById_update (store : EventStore) (eid : String) (p : JVal) :
    getEventById (updateEventPayload store eid p) eid
      = (getEventById store eid).map (fun e => { e with payload := p }) := by
  induction store with
  | nil => rfl
  | cons e rest ih =>
      unfold updateEventPayload getEventById
      unfold updateEventPayload getEventById at ih
      by_cases h : e.id = eid
      · simp [List.find?, h]
      · have hbeq : (e.id == eid) = false := by
          simp [h]
        simp [List.find?, h, hbeq, ih]

theorem partialStreamingUpdate_bounded (nowIso : String) (count : ℕ)
    (skvs0 : List (String × JVal)) (pg : JVal) (pm : List (String × JVal)) :
    ∃ l, jget (partialStreamingUpdate nowIso count skvs0 pg pm)
          ("partial_updates") = some (.arr l)
      ∧ l.length ≤ 20 := by
  refine ⟨takeLast 20
      ((match jgetd skvs0 ("partial_updates") with
        | .arr xs => xs
        | _ => []) ++ [JVal.obj
        [(("at"), .str nowIso), (("chunks_received"), .num (count : ℚ)),
         (("partial_guidance"), pg), (("ai_meta"), .obj pm)]]),
    ?_, takeLast_length_le 20 _⟩
  simp only [partialStreamingUpdate]
  rw [jget_jset_other _ _ _ _ (by decide), jget_jset_self]

/-- The success branch of the partial stage: the handler persists the
streaming history via `partialStreamingUpdate`. -/
theorem handleLiveChunkPartial_success
    (nowIso : String) (store : EventStore) (streams : LiveStreams)
    (st : StreamState) (ev : CareEvent)
    (enr : Enrichment) (gkvs makvs pkvs : List (String × JVal))
    (hga : enr.ai_guidance = .obj gkvs)
    (hma : enr.ai_meta = .obj makvs)
    (hpay : ev.payload = .obj pkvs) :
    handleLiveChunkPartial nowIso store streams st ev (.ok enr)
      = ⟨some st.fileLen,
         some (updateEventPayload store ev.id
            (.obj (jset (jset (jset pkvs ("streaming")
                (.obj (partialStreamingUpdate nowIso st.chunk_count
                  (match jgetd pkvs ("streaming") with
                   | .obj s => s
                   | _ => [])
                  (partialGuidanceOf gkvs)
                  (jset makvs ("request_mode")
                    (.str ("multimodal_partial"))))))
                ("audio_analysis") enr.audio_analysis)
              ("ai_meta")
              (.obj (jset makvs ("request_mode")
                (.str ("multimodal_partial")))))),
           streams,
           .partialReady (partialGuidanceOf gkvs)
             (.obj (jset makvs ("request_mode")
               (.str ("multimodal_partial")))) false)⟩ := by
  unfold handleLiveChunkPartial
  simp only [hga, hma, hpay, JVal.asObj]

/-- C10 (implicit invariant): after every successful partial inference,
the `streaming.partial_updates` history stored on the event is truncated
to the 20 most recent entries, so its stored length never exceeds 20
regardless of how many chunks or partial passes have occurred (whatever
list was previously stored). -/
theorem C10_partial_updates_bounded
    (now : ℤ) (nowIso : String) (store : EventStore) (streams : LiveStreams)
    (sid : String) (st : StreamState) (ch : Upload) (mimeField : Option String)
    (enr : Enrichment) (ev : CareEvent)
    (gkvs makvs pkvs : List (String × JVal))
    (hfresh : ∀ p ∈ streams, isStale now p.2 = false)
    (hsid : sid ≠ "")
    (hlook : lookupStream streams sid = some st)
    (hsize : ch.len ≤ LIVE_CHUNK_MAX_BYTES)
    (hev : getEventById store st.event_id = some ev)
    (hpath : st.file_path ≠ "")
    (hpay : ev.payload = .obj pkvs)
    (h3 : (st.chunk_count + 1) % LIVE_PARTIAL_EVERY_CHUNKS = 0)
    (hga : enr.ai_guidance = .obj gkvs)
    (hma : enr.ai_meta = .obj makvs) :
    ∃ store2 streams2 pg pm l,
      (handleLiveChunk now nowIso store streams true (some sid) (some ch)
          mimeField (.ok enr)).result
        = some (store2, streams2, .partialReady pg pm false)
      ∧ eventPartialUpdates store2 st.event_id = some (.arr l)
      ∧ l.length ≤ 20 := by
  have hred := handleLiveChunk_accepted_eq now nowIso store streams sid st ch
    mimeField (.ok enr) ev pkvs hfresh hsid hlook hsize hev hpath hpay
  have hid : ev.id = st.event_id := getEventById_id hev
  have hev' : getEventById store ev.id = some ev := by rw [hid]; exact hev
  rw [hred]
  simp only [ne_eq, h3, not_true_eq_false, if_false]
  rw [handleLiveChunkPartial_success _ _ _ _ _ _ gkvs makvs _ hga hma rfl]
  obtain ⟨l, hsk, hlen⟩ := partialStreamingUpdate_bounded nowIso
    (st.chunk_count + 1)
    (match jgetd (jset pkvs ("streaming")
        (.obj (jset (jset (jset (jset
          (match jgetd pkvs ("streaming") with
           | .obj s => s
           | _ => []) ("status") (.str ("streaming")))
          ("last_chunk_at") (.str nowIso))
          ("chunks_received") (.num ((st.chunk_count + 1 : ℕ) : ℚ)))
          ("total_bytes") (.num ((st.total_bytes + ch.len : ℕ) : ℚ)))))
        ("streaming") with
     | .obj s => s
     | _ => [])
    (partialGuidanceOf gkvs)
    (jset makvs ("request_mode") (.str ("multimodal_partial")))
  refine ⟨_, _, partialGuidanceOf gkvs, _, l, rfl, ?_, hlen⟩
  unfold eventPartialUpdates
  rw [← hid]
  simp only []
  rw [getEventById_update, getEventById_update, hev']
  simp only [Option.map_some']
  rw [jget_jset_other _ _ _ _ (by decide),
    jget_jset_other _ _ _ _ (by decide), jget_jset_self]
  exact hsk

/-- Witness for `C10_partial_updates_bounded`: the third chunk of a
stream triggers a partial pass and the stored history has at most 20
entries. -/
theorem C10_witness :
    ∃ store2 streams2 pg pm l,
      (handleLiveChunk 1000 ("2026-01-01T00:00:00Z")
          [{ id := "evt_s", type_ := "crying", occurred_at := none,
             source := .str ("device"), category := "crying",
             payload := .obj [], tags := .arr [], created_at := none }]
          [(("str_1"),
            { event_id := "evt_s", file_path := "uploads/live/str_1.webm",
              audio_mime_type := .str ("audio/webm"), chunk_count := 2,
              total_bytes := 10, last_activity := 1000,
              assigned_variant := "treatment", fileLen := 10 })]
          true (some ("str_1")) (some ⟨5, "c.bin", "audio/webm"⟩) none
          (.ok ⟨.obj [], .obj [], .obj []⟩)).result
        = some (store2, streams2, .partialReady pg pm false)
      ∧ eventPartialUpdates store2 ("evt_s") = some (.arr l)
      ∧ l.length ≤ 20 :=
  C10_partial_updates_bounded 1000 ("2026-01-01T00:00:00Z")
    [{ id := "evt_s", type_ := "crying", occurred_at := none,
       source := .str ("device"), category := "crying",
       payload := .obj [], tags := .arr [], created_at := none }]
    [(("str_1"),
      { event_id := "evt_s", file_path := "uploads/live/str_1.webm",
        audio_mime_type := .str ("audio/webm"), chunk_count := 2,
        total_bytes := 10, last_activity := 1000,
        assigned_variant := "treatment", fileLen := 10 })]
    ("str_1")
    { event_id := "evt_s", file_path := "uploads/live/str_1.webm",
      audio_mime_type := .str ("audio/webm"), chunk_count := 2,
      total_bytes := 10, last_activity := 1000,
      assigned_variant := "treatment", fileLen := 10 }
    ⟨5, "c.bin", "audio/webm"⟩ none ⟨.obj [], .obj [], .obj []⟩
    { id := "evt_s", type_ := "crying", occurred_at := none,
      source := .str ("device"), category := "crying",
      payload := .obj [], tags := .arr [], created_at := none }
    [] [] []
    (by decide) (by decide) rfl (by decide) rfl (by decide) rfl (by decide)
    rfl rfl

/-- Witness for `C2_chunk_cadence`: the second chunk of a stream (5 bytes
onto a 10-byte buffer) does not trigger a partial call and is
acknowledged as `buffering` with one chunk to go. -/
theorem C2_witness :
    (handleLiveChunk 1000 ("2026-01-01T00:00:00Z")
        [{ id := "evt_s", type_ := "crying", occurred_at := none,
           source := .str ("device"), category := "crying",
           payload := .obj [], tags := .arr [], created_at := none }]
        [(("str_1"),
          { event_id := "evt_s", file_path := "uploads/live/str_1.webm",
            audio_mime_type := .str ("audio/webm"), chunk_count := 1,
            total_bytes := 10, last_activity := 1000,
            assigned_variant := "treatment", fileLen := 10 })]
        true (some ("str_1")) (some ⟨5, "c.bin", "audio/webm"⟩) none
        (.err .null)).partialCall
      = (if (1 + 1) % LIVE_PARTIAL_EVERY_CHUNKS = 0
         then some (10 + 5) else none)
    ∧ ((1 + 1) % LIVE_PARTIAL_EVERY_CHUNKS ≠ 0 →
        ∃ store2 streams2,
          (handleLiveChunk 1000 ("2026-01-01T00:00:00Z")
              [{ id := "evt_s", type_ := "crying", occurred_at := none,
                 source := .str ("device"), category := "crying",
                 payload := .obj [], tags := .arr [], created_at := none }]
              [(("str_1"),
                { event_id := "evt_s", file_path := "uploads/live/str_1.webm",
                  audio_mime_type := .str ("audio/webm"), chunk_count := 1,
                  total_bytes := 10, last_activity := 1000,
                  assigned_variant := "treatment", fileLen := 10 })]
              true (some ("str_1")) (some ⟨5, "c.bin", "audio/webm"⟩) none
              (.err .null)).result
            = some (store2, streams2,
                .buffering (1 + 1)
                  (LIVE_PARTIAL_EVERY_CHUNKS
                    - (1 + 1) % LIVE_PARTIAL_EVERY_CHUNKS))) :=
  C2_chunk_cadence 1000 ("2026-01-01T00:00:00Z")
    [{ id := "evt_s", type_ := "crying", occurred_at := none,
       source := .str ("device"), category := "crying",
       payload := .obj [], tags := .arr [], created_at := none }]
    [(("str_1"),
      { event_id := "evt_s", file_path := "uploads/live/str_1.webm",
        audio_mime_type := .str ("audio/webm"), chunk_count := 1,
        total_bytes := 10, last_activity := 1000,
        assigned_variant := "treatment", fileLen := 10 })]
    ("str_1")
    { event_id := "evt_s", file_path := "uploads/live/str_1.webm",
      audio_mime_type := .str ("audio/webm"), chunk_count := 1,
      total_bytes := 10, last_activity := 1000,
      assigned_variant := "treatment", fileLen := 10 }
    ⟨5, "c.bin", "audio/webm"⟩ none (.err .null)
    { id := "evt_s", type_ := "crying", occurred_at := none,
      source := .str ("device"), category := "crying",
      payload := .obj [], tags := .arr [], created_at := none }
    [] (by decide) (by decide) rfl (by decide) rfl (by decide) rfl

/-! ## C3: staleness reaping -/

theorem option_foldlM_single {α β : Type} (f : β → α → Option β) (b : β)
    (a : α) : List.foldlM f b [a] = f b a := by
  cases h : f b a <;> simp [List.foldlM, h]

theorem lookupStream_removeStream (streams : LiveStreams) (sid : String) :
    lookupStream (removeStream streams sid) sid = none := by
  unfold lookupStream removeStream
  rw [Option.map_eq_none']
  rw [List.find?_eq_none]
  intro x hx
  have hx2 := (List.mem_filter.mp hx).2
  simp at hx2 ⊢
  exact hx2

/-- The reap pass on a stale id whose stream, event and dict payload all
resolve: the event is patched (streaming completed/timeout plus the
guidance-unavailable notice) and the registry entry dropped. -/
theorem reapStream_eq (nowIso : String) (store : EventStore)
    (streams : LiveStreams) (sid : String) (st : StreamState)
    (ev : CareEvent) (pkvs : List (String × JVal))
    (hlook : lookupStream streams sid = some st)
    (hev : getEventById store st.event_id = some ev)
    (hpay : ev.payload = .obj pkvs) :
    reapStream nowIso (store, streams) sid
      = some (updateEventPayload store st.event_id
          (.obj (jset (jset pkvs ("streaming")
              (.obj (jset (jset (jset
                (match jgetd pkvs ("streaming") with
                 | .obj s => s
                 | _ => []) ("status") (.str ("completed")))
                ("ended_at") (.str nowIso))
                ("ended_reason") (.str ("timeout")))))
            ("notice") (.str (composeNotice true false)))),
          removeStream streams sid) := by
  unfold reapStream
  simp only [hlook, hev, hpay, JVal.asObj]

/-- C3: if the only stale session is `(sid, st)` (all other registry
entries are fresh), the sweep that runs at the top of every live
endpoint closes it: its event's `streaming.status` becomes `completed`
with `ended_reason` `timeout` and the guidance-unavailable notice, the
session is removed from the registry, and a subsequent chunk or finish
naming `sid` is answered with a 404 `Stream not found` on the swept
state. -/
theorem C3_stale_reaping
    (autoSplit : Bool) (now : ℤ) (nowIso : String)
    (store : EventStore) (streams : LiveStreams) (sid : String)
    (st : StreamState) (ev : CareEvent) (pkvs : List (String × JVal))
    (ch : Upload) (mimeField : Option String) (outcome : ReasonOutcome)
    (recents : List CareEvent) (tOut cOut : ReasonOutcome)
    (hsid : sid ≠ "")
    (hstale1 : streams.filter (fun p => isStale now p.2) = [(sid, st)])
    (hlook : lookupStream streams sid = some st)
    (hev : getEventById store st.event_id = some ev)
    (hpay : ev.payload = .obj pkvs) :
    ∃ store2 streams2,
      cleanupStaleLiveStreams now nowIso store streams
        = some (store2, streams2)
      ∧ lookupStream streams2 sid = none
      ∧ eventStreamingField store2 st.event_id ("status")
          = some (.str ("completed"))
      ∧ eventStreamingField store2 st.event_id ("ended_reason")
          = some (.str ("timeout"))
      ∧ eventPayloadField store2 st.event_id ("notice")
          = some (.str (composeNotice true false))
      ∧ (handleLiveChunk now nowIso store streams true (some sid) (some ch)
            mimeField outcome).result
          = some (store2, streams2, .fail 404 ("Stream not found"))
      ∧ handleLiveFinish autoSplit now nowIso store streams (some sid)
            recents tOut cOut
          = some (store2, streams2, .fail 404 ("Stream not found")) := by
  have hreap := reapStream_eq nowIso store streams sid st ev pkvs hlook hev hpay
  have hclean : cleanupStaleLiveStreams now nowIso store streams
      = some (updateEventPayload store st.event_id
          (.obj (jset (jset pkvs ("streaming")
              (.obj (jset (jset (jset
                (match jgetd pkvs ("streaming") with
                 | .obj s => s
                 | _ => []) ("status") (.str ("completed")))
                ("ended_at") (.str nowIso))
                ("ended_reason") (.str ("timeout")))))
            ("notice") (.str (composeNotice true false)))),
          removeStream streams sid) := by
    unfold cleanupStaleLiveStreams
    rw [hstale1]
    simp only [List.map_cons, List.map_nil]
    rw [option_foldlM_single, hreap]
  refine ⟨_, _, hclean, lookupStream_removeStream streams sid, ?_, ?_, ?_,
    ?_, ?_⟩
  · unfold eventStreamingField
    rw [getEventById_update, hev, Option.map_some']
    simp only []
    rw [jget_jset_other _ _ _ _ (by decide), jget_jset_self]
    simp only []
    rw [jget_jset_other _ _ _ _ (by decide),
      jget_jset_other _ _ _ _ (by decide), jget_jset_self]
  · unfold eventStreamingField
    rw [getEventById_update, hev, Option.map_some']
    simp only []
    rw [jget_jset_other _ _ _ _ (by decide), jget_jset_self]
    simp only []
    rw [jget_jset_self]
  · unfold eventPayloadField
    rw [getEventById_update, hev, Option.map_some']
    simp only []
    rw [jget_jset_self]
  · unfold handleLiveChunk
    rw [hclean]
    simp only [Bool.not_true, Bool.false_eq_true, if_false, if_neg hsid,
      lookupStream_removeStream]
  · unfold handleLiveFinish
    rw [hclean]
    simp only [if_neg hsid, lookupStream_removeStream]

/-- Witness for `C3_stale_reaping`: a stream idle for 1000 seconds
(timeout 300) is reaped and a follow-up chunk and finish 404. -/
theorem C3_witness :
    ∃ store2 streams2,
      cleanupStaleLiveStreams 1000 ("2026-01-01T00:00:00Z")
          [{ id := "evt_s", type_ := "crying", occurred_at := none,
             source := .str ("device"), category := "crying",
             payload := .obj [], tags := .arr [], created_at := none }]
          [(("str_1"),
            { event_id := "evt_s", file_path := "uploads/live/str_1.webm",
              audio_mime_type := .str ("audio/webm"), chunk_count := 1,
              total_bytes := 10, last_activity := 0,
              assigned_variant := "treatment", fileLen := 10 })]
        = some (store2, streams2)
      ∧ lookupStream streams2 ("str_1") = none
      ∧ eventStreamingField store2 ("evt_s") ("status")
          = some (.str ("completed"))
      ∧ eventStreamingField store2 ("evt_s") ("ended_reason")
          = some (.str ("timeout"))
      ∧ eventPayloadField store2 ("evt_s") ("notice")
          = some (.str (composeNotice true false))
      ∧ (handleLiveChunk 1000 ("2026-01-01T00:00:00Z")
            [{ id := "evt_s", type_ := "crying", occurred_at := none,
               source := .str ("device"), category := "crying",
               payload := .obj [], tags := .arr [], created_at := none }]
            [(("str_1"),
              { event_id := "evt_s", file_path := "uploads/live/str_1.webm",
                audio_mime_type := .str ("audio/webm"), chunk_count := 1,
                total_bytes := 10, last_activity := 0,
                assigned_variant := "treatment", fileLen := 10 })]
            true (some ("str_1")) (some ⟨5, "c.bin", "audio/webm"⟩) none
            (.err .null)).result
          = some (store2, streams2, .fail 404 ("Stream not found"))
      ∧ handleLiveFinish true 1000 ("2026-01-01T00:00:00Z")
            [{ id := "evt_s", type_ := "crying", occurred_at := none,
               source := .str ("device"), category := "crying",
               payload := .obj [], tags := .arr [], created_at := none }]
            [(("str_1"),
              { event_id := "evt_s", file_path := "uploads/live/str_1.webm",
                audio_mime_type := .str ("audio/webm"), chunk_count := 1,
                total_bytes := 10, last_activity := 0,
                assigned_variant := "treatment", fileLen := 10 })]
            (some ("str_1")) [] (.err .null) (.err .null)
          = some (store2, streams2, .fail 404 ("Stream not found")) :=
  C3_stale_reaping true 1000 ("2026-01-01T00:00:00Z")
    [{ id := "evt_s", type_ := "crying", occurred_at := none,
       source := .str ("device"), category := "crying",
       payload := .obj [], tags := .arr [], created_at := none }]
    [(("str_1"),
      { event_id := "evt_s", file_path := "uploads/live/str_1.webm",
        audio_mime_type := .str ("audio/webm"), chunk_count := 1,
        total_bytes := 10, last_activity := 0,
        assigned_variant := "treatment", fileLen := 10 })]
    ("str_1")
    { event_id := "evt_s", file_path := "uploads/live/str_1.webm",
      audio_mime_type := .str ("audio/webm"), chunk_count := 1,
      total_bytes := 10, last_activity := 0,
      assigned_variant := "treatment", fileLen := 10 }
    { id := "evt_s", type_ := "crying", occurred_at := none,
      source := .str ("device"), category := "crying",
      payload := .obj [], tags := .arr [], created_at := none }
    [] ⟨5, "c.bin", "audio/webm"⟩ none (.err .null) [] (.err .null)
    (.err .null)
    (by decide) rfl rfl rfl rfl

/-! ## C1: best-effort reasoning errors -/

theorem jget_not_mem {l : List (String × JVal)} {k : String}
    (h : k ∉ l.map Prod.fst) : jget l k = none := by
  induction l with
  | nil => rfl
  | cons hd tl ih =>
      obtain ⟨k0, v0⟩ := hd
      simp only [List.map_cons, List.mem_cons] at h
      push_neg at h
      unfold jget
      rw [if_neg (fun hk => h.1 hk.symm)]
      exact ih h.2

theorem jget_jerase_self {l : List (String × JVal)} (k : String)
    (h : (l.map Prod.fst).Nodup) : jget (jerase l k) k = none := by
  induction l with
  | nil => rfl
  | cons hd tl ih =>
      obtain ⟨k0, v0⟩ := hd
      simp only [List.map_cons, List.nodup_cons] at h
      unfold jerase
      by_cases hk : k0 = k
      · rw [if_pos hk]
        subst hk
        exact jget_not_mem h.1
      · rw [if_neg hk]
        unfold jget
        rw [if_neg hk]
        exact ih h.2

theorem getEventById_insert_fresh (store : EventStore) (ev : CareEvent)
    (h : getEventById store ev.id = none) :
    getEventById (insertEvent store ev) ev.id = some ev := by
  unfold insertEvent
  rw [h]
  simp only [Option.isSome_none, Bool.false_eq_true, if_false]
  unfold getEventById at h ⊢
  rw [List.find?_append, h]
  simp [List.find?]

/-- The fields of the persisted error-branch payload: `ai_guidance` was
popped (unique keys), `ai_meta` carries the error's metadata, and the
notice line is the last write. -/
theorem buildErrorPayload_fields (autoSplit : Bool) (assigned : String)
    (base : List (String × JVal)) (e : JVal) (v : JVal)
    (hnodup : (base.map Prod.fst).Nodup) :
    jget (jset (buildErrorPayload autoSplit assigned base e) ("notice") v)
        ("ai_guidance") = none
    ∧ jget (jset (buildErrorPayload autoSplit assigned base e) ("notice") v)
        ("ai_meta") = some (errorAiMeta e)
    ∧ jget (jset (buildErrorPayload autoSplit assigned base e) ("notice") v)
        ("notice") = some v := by
  refine ⟨?_, ?_, jget_jset_self _ _ _⟩
  · rw [jget_jset_other _ _ _ _ (by decide)]
    unfold buildErrorPayload
    simp only []
    rw [jget_jset_other _ _ _ _ (by decide),
      jget_jset_other _ _ _ _ (by decide)]
    exact jget_jerase_self _ hnodup
  · rw [jget_jset_other _ _ _ _ (by decide)]
    unfold buildErrorPayload
    simp only []
    rw [jget_jset_other _ _ _ _ (by decide), jget_jset_self]

/-- The reasoning-error branch of `_apply_reasoning_to_event`, given
that the safety-notice scan completes. -/
theorem applyReasoningToEvent_err_eq (autoSplit : Bool) (store : EventStore)
    (recents : List CareEvent) (event : CareEvent) (assigned : String)
    (e : JVal) (cOut : ReasonOutcome) (pkvs : List (String × JVal)) (sv : Bool)
    (hpay : event.payload = .obj pkvs)
    (hsn : shouldAddSafetyNotice
        { event with
          payload := .obj (buildErrorPayload autoSplit assigned pkvs e) }
        (recents.filter (fun it => it.id ≠ event.id)) = some sv) :
    applyReasoningToEvent autoSplit store recents event assigned (.err e) cOut
      = some (updateEventPayload store event.id
          (.obj (jset (buildErrorPayload autoSplit assigned pkvs e)
            ("notice") (.str (composeNotice true sv)))),
        { event with payload := .obj (jset (buildErrorPayload autoSplit
            assigned pkvs e) ("notice") (.str (composeNotice true sv))) },
        false, some e) := by
  unfold applyReasoningToEvent
  simp only [hpay, JVal.asObj, hsn]

/-- C1 counterexample: a single-shot crying request whose client payload
stores a truthy non-string transcription, combined with a reasoning
error, makes the safety-notice scan raise (Python calls .lower() on a
non-string), so the request fails after the event write: no 200 response
is produced, refuting that no exception ever propagates to the ingestion
caller. -/
theorem C1_crash_counterexample :
    handlePostCrying false (fun _ => 0) [] []
      { body := [(("payload"), .obj [(("audio_analysis"),
            .obj [(("transcription"), .num 1)])])],
        upload := none, bodyOccurredAt := none,
        newEventId := "evt_1", newAudioId := "aud_1",
        stubVersion := "2026-01-01",
        nowT := ⟨0, 0⟩, nowIso := "1970-01-01T00:00:00Z" }
      (.err .null) (.err .null) = none := by
  rfl

/-- C1 (amended): when the treatment reasoning call errors, both
ingestion paths persist the event and answer 200 provided the
safety-notice scan itself completes (it raises on truthy non-string
transcriptions).  Single shot: the event is inserted before reasoning
runs, and the persisted patch drops ai_guidance, stores the error's
ai_meta and appends the guidance-unavailable notice.  Live finish: the
completed event carries the same error patch plus the streaming
completion record with the final error. -/
theorem C1_reasoning_error_best_effort
    (autoSplit : Bool) (md5Head : String → ℕ)
    (store storeL : EventStore) (recents recentsL : List CareEvent)
    (req : CryingRequest) (e eL : JVal) (cOut cOutL : ReasonOutcome)
    (sv svL : Bool)
    (now : ℤ) (nowIso : String) (streams : LiveStreams) (sid : String)
    (st : StreamState) (evS : CareEvent) (pkvsS : List (String × JVal))
    (hsize : (match req.upload with
              | some u => u.len != 0 && decide (MAX_AUDIO_BYTES < u.len)
              | none => false) = false)
    (hfresh : getEventById store req.newEventId = none)
    (hnodup : ((assembledCryingPayload req).map Prod.fst).Nodup)
    (hsn : shouldAddSafetyNotice
        { assembleCryingEvent req with
          payload := .obj (buildErrorPayload autoSplit
            (resolveAbVariant autoSplit md5Head (jgetd req.body ("ab_variant"))
              req.newEventId)
            (assembledCryingPayload req) e) }
        (recents.filter (fun it => it.id ≠ req.newEventId)) = some sv)
    (hfreshS : ∀ p ∈ streams, isStale now p.2 = false)
    (hsidS : sid ≠ "")
    (hlook : lookupStream streams sid = some st)
    (hevS : getEventById storeL st.event_id = some evS)
    (hpayS : evS.payload = .obj pkvsS)
    (hnodupS : (pkvsS.map Prod.fst).Nodup)
    (hsnS : shouldAddSafetyNotice
        { evS with
          payload := .obj (buildErrorPayload autoSplit
            (if st.assigned_variant = "" then "treatment"
             else st.assigned_variant) pkvsS eL) }
        (recentsL.filter (fun it => it.id ≠ evS.id)) = some svL) :
    (∃ P,
      handlePostCrying autoSplit md5Head store recents req (.err e) cOut
        = some (updateEventPayload (insertEvent store (assembleCryingEvent req))
            req.newEventId (.obj P),
          .ok { assembleCryingEvent req with payload := .obj P })
      ∧ P = jset (buildErrorPayload autoSplit
            (resolveAbVariant autoSplit md5Head (jgetd req.body ("ab_variant"))
              req.newEventId)
            (assembledCryingPayload req) e)
          ("notice") (.str (composeNotice true sv))
      ∧ getEventById (insertEvent store (assembleCryingEvent req))
          req.newEventId = some (assembleCryingEvent req)
      ∧ jget P ("ai_guidance") = none
      ∧ jget P ("ai_meta") = some (errorAiMeta e)
      ∧ jget P ("notice") = some (.str (composeNotice true sv)))
    ∧ (∃ store3 P3 skvs3,
      handleLiveFinish autoSplit now nowIso storeL streams (some sid)
          recentsL (.err eL) cOutL
        = some (store3, removeStream streams sid,
            .completed { evS with payload := .obj P3 })
      ∧ jget P3 ("ai_guidance") = none
      ∧ jget P3 ("ai_meta") = some (errorAiMeta eL)
      ∧ jget P3 ("streaming") = some (.obj skvs3)
      ∧ jget skvs3 ("status") = some (.str ("completed"))
      ∧ jget skvs3 ("final_error") = some eL) := by
  constructor
  · have happly := applyReasoningToEvent_err_eq autoSplit
      (insertEvent store (assembleCryingEvent req)) recents
      (assembleCryingEvent req)
      (resolveAbVariant autoSplit md5Head (jgetd req.body ("ab_variant"))
        (assembleCryingEvent req).id)
      e cOut (assembledCryingPayload req) sv rfl hsn
    refine ⟨_, ?_, rfl, getEventById_insert_fresh store _ hfresh,
      (buildErrorPayload_fields autoSplit _ _ e _ hnodup).1,
      (buildErrorPayload_fields autoSplit _ _ e _ hnodup).2.1,
      (buildErrorPayload_fields autoSplit _ _ e _ hnodup).2.2⟩
    unfold handlePostCrying
    simp only [hsize, Bool.false_eq_true, if_false, happly]
    rfl
  · have hcl := cleanupStaleLiveStreams_no_stale now nowIso storeL streams
      hfreshS
    have happlyS := applyReasoningToEvent_err_eq autoSplit storeL recentsL evS
      (if st.assigned_variant = "" then "treatment" else st.assigned_variant)
      eL cOutL pkvsS svL hpayS hsnS
    have hfin : handleLiveFinish autoSplit now nowIso storeL streams (some sid)
        recentsL (.err eL) cOutL
      = some (updateEventPayload (updateEventPayload storeL evS.id
            (.obj (jset (buildErrorPayload autoSplit
              (if st.assigned_variant = "" then "treatment"
               else st.assigned_variant) pkvsS eL)
              ("notice") (.str (composeNotice true svL)))))
          evS.id
          (.obj (jset (jset (buildErrorPayload autoSplit
              (if st.assigned_variant = "" then "treatment"
               else st.assigned_variant) pkvsS eL)
              ("notice") (.str (composeNotice true svL)))
            ("streaming")
            (.obj (jset (jset (jset (jset (jset
              (match jgetd (jset (buildErrorPayload autoSplit
                  (if st.assigned_variant = "" then "treatment"
                   else st.assigned_variant) pkvsS eL)
                  ("notice") (.str (composeNotice true svL)))
                ("streaming") with
               | .obj s => s
               | _ => []) ("status") (.str ("completed")))
              ("ended_at") (.str nowIso))
              ("chunks_received") (.num (st.chunk_count : ℚ)))
              ("total_bytes") (.num (st.total_bytes : ℚ)))
              ("final_error") eL)))),
          removeStream streams sid,
          .completed
            { evS with payload :=
                JVal.obj (jset (jset (buildErrorPayload autoSplit
                    (if st.assigned_variant = "" then "treatment"
                     else st.assigned_variant) pkvsS eL)
                    ("notice") (.str (composeNotice true svL)))
                  ("streaming")
                  (.obj (jset (jset (jset (jset (jset
                    (match jgetd (jset (buildErrorPayload autoSplit
                        (if st.assigned_variant = "" then "treatment"
                         else st.assigned_variant) pkvsS eL)
                        ("notice") (.str (composeNotice true svL)))
                      ("streaming") with
                     | .obj s => s
                     | _ => []) ("status") (.str ("completed")))
                    ("ended_at") (.str nowIso))
                    ("chunks_received") (.num (st.chunk_count : ℚ)))
                    ("total_bytes") (.num (st.total_bytes : ℚ)))
                    ("final_error") eL))) }) := by
      unfold handleLiveFinish
      rw [hcl]
      simp only [if_neg hsidS, hlook, hevS, happlyS, JVal.asObj,
        Bool.false_eq_true, if_false, Option.getD_some]
    refine ⟨_, _, jset (jset (jset (jset (jset
        (match jgetd (jset (buildErrorPayload autoSplit
            (if st.assigned_variant = "" then "treatment"
             else st.assigned_variant) pkvsS eL)
            ("notice") (.str (composeNotice true svL)))
          ("streaming") with
         | .obj s => s
         | _ => []) ("status") (.str ("completed")))
        ("ended_at") (.str nowIso))
        ("chunks_received") (.num (st.chunk_count : ℚ)))
        ("total_bytes") (.num (st.total_bytes : ℚ)))
        ("final_error") eL, hfin, ?_, ?_, ?_, ?_, ?_⟩
    · rw [jget_jset_other _ _ _ _ (by decide)]
      exact (buildErrorPayload_fields autoSplit _ _ eL _ hnodupS).1
    · rw [jget_jset_other _ _ _ _ (by decide)]
      exact (buildErrorPayload_fields autoSplit _ _ eL _ hnodupS).2.1
    · exact jget_jset_self _ _ _
    · rw [jget_jset_other _ _ _ _ (by decide),
        jget_jset_other _ _ _ _ (by decide),
        jget_jset_other _ _ _ _ (by decide),
        jget_jset_other _ _ _ _ (by decide), jget_jset_self]
    · exact jget_jset_self _ _ _

/-- Witness for `C1_reasoning_error_best_effort`: an empty single-shot
request plus a one-stream live finish, both with failing reasoning. -/
theorem C1_witness :
    (∃ P,
      handlePostCrying false (fun _ => 0) [] []
          { body := [], upload := none, bodyOccurredAt := none,
            newEventId := "evt_1", newAudioId := "aud_1",
            stubVersion := "2026-01-01",
            nowT := ⟨0, 0⟩, nowIso := "1970-01-01T00:00:00Z" }
          (.err (.str ("boom"))) (.err .null)
        = some (updateEventPayload (insertEvent []
            (assembleCryingEvent
              { body := [], upload := none, bodyOccurredAt := none,
                newEventId := "evt_1", newAudioId := "aud_1",
                stubVersion := "2026-01-01",
                nowT := ⟨0, 0⟩, nowIso := "1970-01-01T00:00:00Z" }))
            ("evt_1") (.obj P),
          .ok { assembleCryingEvent
              { body := [], upload := none, bodyOccurredAt := none,
                newEventId := "evt_1", newAudioId := "aud_1",
                stubVersion := "2026-01-01",
                nowT := ⟨0, 0⟩, nowIso := "1970-01-01T00:00:00Z" } with
              payload := .obj P })
      ∧ P = jset (buildErrorPayload false
            (resolveAbVariant false (fun _ => 0) (jgetd [] ("ab_variant"))
              ("evt_1"))
            (assembledCryingPayload
              { body := [], upload := none, bodyOccurredAt := none,
                newEventId := "evt_1", newAudioId := "aud_1",
                stubVersion := "2026-01-01",
                nowT := ⟨0, 0⟩, nowIso := "1970-01-01T00:00:00Z" })
            (.str ("boom")))
          ("notice") (.str (composeNotice true false))
      ∧ getEventById (insertEvent []
          (assembleCryingEvent
            { body := [], upload := none, bodyOccurredAt := none,
              newEventId := "evt_1", newAudioId := "aud_1",
              stubVersion := "2026-01-01",
              nowT := ⟨0, 0⟩, nowIso := "1970-01-01T00:00:00Z" }))
          ("evt_1")
          = some (assembleCryingEvent
            { body := [], upload := none, bodyOccurredAt := none,
              newEventId := "evt_1", newAudioId := "aud_1",
              stubVersion := "2026-01-01",
              nowT := ⟨0, 0⟩, nowIso := "1970-01-01T00:00:00Z" })
      ∧ jget P ("ai_guidance") = none
      ∧ jget P ("ai_meta") = some (errorAiMeta (.str ("boom")))
      ∧ jget P ("notice") = some (.str (composeNotice true false)))
    ∧ (∃ store3 P3 skvs3,
      handleLiveFinish false 1000 ("2026-01-01T00:00:00Z")
          [{ id := "evt_s", type_ := "crying", occurred_at := none,
             source := .str ("device"), category := "crying",
             payload := .obj [], tags := .arr [], created_at := none }]
          [(("str_1"),
            { event_id := "evt_s", file_path := "uploads/live/str_1.webm",
              audio_mime_type := .str ("audio/webm"), chunk_count := 1,
              total_bytes := 10, last_activity := 1000,
              assigned_variant := "treatment", fileLen := 10 })]
          (some ("str_1")) [] (.err .null) (.err .null)
        = some (store3,
            removeStream [(("str_1"),
              { event_id := "evt_s", file_path := "uploads/live/str_1.webm",
                audio_mime_type := .str ("audio/webm"), chunk_count := 1,
                total_bytes := 10, last_activity := 1000,
                assigned_variant := "treatment", fileLen := 10 })] ("str_1"),
            .completed
              { id := "evt_s", type_ := "crying", occurred_at := none,
                source := .str ("device"), category := "crying",
                payload := .obj P3, tags := .arr [], created_at := none })
      ∧ jget P3 ("ai_guidance") = none
      ∧ jget P3 ("ai_meta") = some (errorAiMeta .null)
      ∧ jget P3 ("streaming") = some (.obj skvs3)
      ∧ jget skvs3 ("status") = some (.str ("completed"))
      ∧ jget skvs3 ("final_error") = some .null) :=
  C1_reasoning_error_best_effort false (fun _ => 0) []
    [{ id := "evt_s", type_ := "crying", occurred_at := none,
       source := .str ("device"), category := "crying",
       payload := .obj [], tags := .arr [], created_at := none }]
    [] []
    { body := [], upload := none, bodyOccurredAt := none,
      newEventId := "evt_1", newAudioId := "aud_1",
      stubVersion := "2026-01-01",
      nowT := ⟨0, 0⟩, nowIso := "1970-01-01T00:00:00Z" }
    (.str ("boom")) .null (.err .null) (.err .null) false false
    1000 ("2026-01-01T00:00:00Z")
    [(("str_1"),
      { event_id := "evt_s", file_path := "uploads/live/str_1.webm",
        audio_mime_type := .str ("audio/webm"), chunk_count := 1,
        total_bytes := 10, last_activity := 1000,
        assigned_variant := "treatment", fileLen := 10 })]
    ("str_1")
    { event_id := "evt_s", file_path := "uploads/live/str_1.webm",
      audio_mime_type := .str ("audio/webm"), chunk_count := 1,
      total_bytes := 10, last_activity := 1000,
      assigned_variant := "treatment", fileLen := 10 }
    { id := "evt_s", type_ := "crying", occurred_at := none,
      source := .str ("device"), category := "crying",
      payload := .obj [], tags := .arr [], created_at := none }
    []
    rfl rfl (by decide) rfl (by decide) (by decide) rfl rfl rfl (by decide)
    rfl

/-! ## C4: display selection (shown_variant) -/

theorem validateGuidanceOutput_truthy (v : JVal)
    (h : validateGuidanceOutput v = true) : v.truthy = true := by
  cases v with
  | obj kvs =>
      cases kvs with
      | nil => simp [validateGuidanceOutput, jhasKey, jget] at h
      | cons a l => rfl
  | null => exact absurd h (by simp [validateGuidanceOutput])
  | jbool b => exact absurd h (by simp [validateGuidanceOutput])
  | num q => exact absurd h (by simp [validateGuidanceOutput])
  | str s => exact absurd h (by simp [validateGuidanceOutput])
  | arr xs => exact absurd h (by simp [validateGuidanceOutput])

theorem buildSuccessPayload_ab (autoSplit : Bool) (assigned : String)
    (base : List (String × JVal)) (enr : Enrichment) (cOut : ReasonOutcome) :
    ∃ abkvs,
      jget (buildSuccessPayload autoSplit assigned base enr cOut) ("ab_test")
        = some (.obj abkvs)
      ∧ jget abkvs ("shown_variant")
          = some (.str (selectShown assigned enr.ai_guidance enr.ai_meta
              (controlGuidanceOf cOut) (controlMetaOf cOut)).1) := by
  rcases cOut with cenr | e2
  · refine ⟨[(("assigned_variant"), .str assigned),
       (("shown_variant"), .str (selectShown assigned enr.ai_guidance
           enr.ai_meta (controlGuidanceOf (.ok cenr))
           (controlMetaOf (.ok cenr))).1),
       (("auto_split_enabled"), .jbool autoSplit),
       (("baseline_mode"), .str ("no_context_no_prior")),
       (("treatment"), .obj [(("ai_guidance"), enr.ai_guidance),
           (("ai_meta"), enr.ai_meta)]),
       (("control"), .obj [(("ai_guidance"), controlGuidanceOf (.ok cenr)),
           (("ai_meta"), controlMetaOf (.ok cenr))])], ?_, ?_⟩
    · unfold buildSuccessPayload
      simp only [controlErrorOf]
      exact jget_jset_self _ _ _
    · rfl
  · by_cases ht : e2.truthy = true
    · refine ⟨jset [(("assigned_variant"), .str assigned),
         (("shown_variant"), .str (selectShown assigned enr.ai_guidance
             enr.ai_meta (controlGuidanceOf (.err e2))
             (controlMetaOf (.err e2))).1),
         (("auto_split_enabled"), .jbool autoSplit),
         (("baseline_mode"), .str ("no_context_no_prior")),
         (("treatment"), .obj [(("ai_guidance"), enr.ai_guidance),
             (("ai_meta"), enr.ai_meta)]),
         (("control"), .obj [(("ai_guidance"), controlGuidanceOf (.err e2)),
             (("ai_meta"), controlMetaOf (.err e2))])]
         ("control_error") e2, ?_, ?_⟩
      · unfold buildSuccessPayload
        simp only [controlErrorOf]
        rw [if_pos ht]
        exact jget_jset_self _ _ _
      · rw [jget_jset_other _ _ _ _ (by decide)]
        rfl
    · refine ⟨[(("assigned_variant"), .str assigned),
         (("shown_variant"), .str (selectShown assigned enr.ai_guidance
             enr.ai_meta (controlGuidanceOf (.err e2))
             (controlMetaOf (.err e2))).1),
         (("auto_split_enabled"), .jbool autoSplit),
         (("baseline_mode"), .str ("no_context_no_prior")),
         (("treatment"), .obj [(("ai_guidance"), enr.ai_guidance),
             (("ai_meta"), enr.ai_meta)]),
         (("control"), .obj [(("ai_guidance"), controlGuidanceOf (.err e2)),
             (("ai_meta"), controlMetaOf (.err e2))])], ?_, ?_⟩
      · unfold buildSuccessPayload
        simp only [controlErrorOf]
        rw [if_neg ht]
        exact jget_jset_self _ _ _
      · rfl

theorem buildSuccessPayload_guidance (autoSplit : Bool) (assigned : String)
    (base : List (String × JVal)) (enr : Enrichment) (cOut : ReasonOutcome) :
    jget (buildSuccessPayload autoSplit assigned base enr cOut)
        ("ai_guidance")
      = some (selectShown assigned enr.ai_guidance enr.ai_meta
          (controlGuidanceOf cOut) (controlMetaOf cOut)).2.1 := by
  unfold buildSuccessPayload
  simp only []
  rw [jget_jset_other _ _ _ _ (by decide), jget_jset_other _ _ _ _ (by decide),
    jget_jset_self]

/-- C4: when the treatment reasoning call succeeds, the persisted A/B
record shows the control arm exactly when the assignment is control and
the control call succeeded (its validated guidance is necessarily
truthy); in that case the control guidance is shown, otherwise the
treatment guidance is shown under shown_variant treatment.  When the
treatment call itself fails, the error-branch record carries
shown_variant null. -/
theorem C4_shown_variant
    (autoSplit : Bool) (assigned : String) (base : List (String × JVal))
    (enr : Enrichment) (cOut : ReasonOutcome) (e : JVal)
    (hcwf : ∀ cenr, cOut = .ok cenr →
      validateGuidanceOutput cenr.ai_guidance = true) :
    (∃ abkvs,
      jget (buildSuccessPayload autoSplit assigned base enr cOut) ("ab_test")
        = some (.obj abkvs)
      ∧ (jget abkvs ("shown_variant") = some (.str ("control"))
          ↔ (assigned = "control" ∧ ∃ cenr, cOut = .ok cenr))
      ∧ (∀ cenr, cOut = .ok cenr → assigned = "control" →
          jget (buildSuccessPayload autoSplit assigned base enr cOut)
            ("ai_guidance") = some cenr.ai_guidance)
      ∧ (¬(assigned = "control" ∧ ∃ cenr, cOut = .ok cenr) →
          jget abkvs ("shown_variant") = some (.str ("treatment"))
          ∧ jget (buildSuccessPayload autoSplit assigned base enr cOut)
              ("ai_guidance") = some enr.ai_guidance))
    ∧ (∃ abkvs2,
        jget (buildErrorPayload autoSplit assigned base e) ("ab_test")
          = some (.obj abkvs2)
        ∧ jget abkvs2 ("shown_variant") = some .null) := by
  obtain ⟨abkvs, hab, hshown⟩ := buildSuccessPayload_ab autoSplit assigned
    base enr cOut
  have hguid := buildSuccessPayload_guidance autoSplit assigned base enr cOut
  refine ⟨⟨abkvs, hab, ?_, ?_, ?_⟩, ?_⟩
  · rw [hshown]
    unfold selectShown
    constructor
    · intro h
      by_cases hc : ((assigned == "control")
          && (controlGuidanceOf cOut).truthy) = true
      · rw [Bool.and_eq_true] at hc
        have ha : assigned = "control" := eq_of_beq hc.1
        rcases cOut with cenr | ce
        · exact ⟨ha, cenr, rfl⟩
        · have hx := hc.2
          simp [controlGuidanceOf, JVal.truthy] at hx
      · rw [if_neg hc] at h
        simp at h
    · intro h
      obtain ⟨ha, cenr, hok⟩ := h
      subst hok
      have htr := validateGuidanceOutput_truthy _ (hcwf cenr rfl)
      rw [if_pos (by simp [ha, controlGuidanceOf, htr])]
  · intro cenr hok ha
    subst hok
    rw [hguid]
    have htr := validateGuidanceOutput_truthy _ (hcwf cenr rfl)
    unfold selectShown
    rw [if_pos (by simp [ha, controlGuidanceOf, htr])]
    rfl
  · intro hn
    have hcond : ((assigned == "control")
        && (controlGuidanceOf cOut).truthy) = false := by
      rcases cOut with cenr | ce
      · have ha : assigned ≠ "control" := fun h => hn ⟨h, cenr, rfl⟩
        simp [ha]
      · simp [controlGuidanceOf, JVal.truthy]
    constructor
    · rw [hshown]
      unfold selectShown
      rw [if_neg (by simp [hcond])]
    · rw [hguid]
      unfold selectShown
      rw [if_neg (by simp [hcond])]
  · refine ⟨[(("assigned_variant"), .str assigned),
       (("shown_variant"), .null),
       (("auto_split_enabled"), .jbool autoSplit),
       (("baseline_mode"), .str ("no_context_no_prior")),
       (("treatment_error"), e)], ?_, ?_⟩
    · unfold buildErrorPayload
      simp only []
      exact jget_jset_self _ _ _
    · rfl

/-- Witness for `C4_shown_variant`: assignment control with a successful
control call carrying valid guidance. -/
theorem C4_witness :
    (∃ abkvs,
      jget (buildSuccessPayload true ("control") []
          ⟨.obj [], .str ("tg"), .obj []⟩
          (.ok ⟨.obj [],
            .obj [(("most_likely_cause"), .obj
                    [(("label"), .str ("hunger")),
                     (("confidence"), .num 1),
                     (("reasoning"), .str ("r"))]),
                  (("alternative_causes"), .arr []),
                  (("recommended_actions"), .arr []),
                  (("caregiver_notice"), .str ("n"))],
            .obj []⟩)) ("ab_test")
        = some (.obj abkvs)
      ∧ (jget abkvs ("shown_variant") = some (.str ("control"))
          ↔ (("control" : String) = "control" ∧ ∃ cenr,
              (.ok ⟨.obj [],
                .obj [(("most_likely_cause"), .obj
                        [(("label"), .str ("hunger")),
                         (("confidence"), .num 1),
                         (("reasoning"), .str ("r"))]),
                      (("alternative_causes"), .arr []),
                      (("recommended_actions"), .arr []),
                      (("caregiver_notice"), .str ("n"))],
                .obj []⟩ : ReasonOutcome) = .ok cenr))
      ∧ (∀ cenr,
          (.ok ⟨.obj [],
            .obj [(("most_likely_cause"), .obj
                    [(("label"), .str ("hunger")),
                     (("confidence"), .num 1),
                     (("reasoning"), .str ("r"))]),
                  (("alternative_causes"), .arr []),
                  (("recommended_actions"), .arr []),
                  (("caregiver_notice"), .str ("n"))],
            .obj []⟩ : ReasonOutcome) = .ok cenr →
          ("control" : String) = "control" →
          jget (buildSuccessPayload true ("control") []
              ⟨.obj [], .str ("tg"), .obj []⟩
              (.ok ⟨.obj [],
                .obj [(("most_likely_cause"), .obj
                        [(("label"), .str ("hunger")),
                         (("confidence"), .num 1),
                         (("reasoning"), .str ("r"))]),
                      (("alternative_causes"), .arr []),
                      (("recommended_actions"), .arr []),
                      (("caregiver_notice"), .str ("n"))],
                .obj []⟩)) ("ai_guidance") = some cenr.ai_guidance)
      ∧ (¬(("control" : String) = "control" ∧ ∃ cenr,
            (.ok ⟨.obj [],
              .obj [(("most_likely_cause"), .obj
                      [(("label"), .str ("hunger")),
                       (("confidence"), .num 1),
                       (("reasoning"), .str ("r"))]),
                    (("alternative_causes"), .arr []),
                    (("recommended_actions"), .arr []),
                    (("caregiver_notice"), .str ("n"))],
              .obj []⟩ : ReasonOutcome) = .ok cenr) →
          jget abkvs ("shown_variant") = some (.str ("treatment"))
          ∧ jget (buildSuccessPayload true ("control") []
                ⟨.obj [], .str ("tg"), .obj []⟩
                (.ok ⟨.obj [],
                  .obj [(("most_likely_cause"), .obj
                          [(("label"), .str ("hunger")),
                           (("confidence"), .num 1),
                           (("reasoning"), .str ("r"))]),
                        (("alternative_causes"), .arr []),
                        (("recommended_actions"), .arr []),
                        (("caregiver_notice"), .str ("n"))],
                  .obj []⟩)) ("ai_guidance") = some (.str ("tg"))))
    ∧ (∃ abkvs2,
        jget (buildErrorPayload true ("control") [] (.str ("boom")))
          ("ab_test") = some (.obj abkvs2)
        ∧ jget abkvs2 ("shown_variant") = some .null) :=
  C4_shown_variant true ("control") [] ⟨.obj [], .str ("tg"), .obj []⟩
    (.ok ⟨.obj [],
      .obj [(("most_likely_cause"), .obj
              [(("label"), .str ("hunger")),
               (("confidence"), .num 1),
               (("reasoning"), .str ("r"))]),
            (("alternative_causes"), .arr []),
            (("recommended_actions"), .arr []),
            (("caregiver_notice"), .str ("n"))],
      .obj []⟩)
    (.str ("boom"))
    (by intro cenr h; cases h; decide)

theorem sliceOf_rate_none (rows : List FeedbackRow) :
    (sliceOf rows).helpful_rate = none ↔ rows = [] := by
  rcases rows with _ | ⟨r, rs⟩ <;> simp [sliceOf, rateOf]

theorem sliceOf_median_none (rows : List FeedbackRow) :
    (sliceOf rows).median_resolved_minutes = none
      ↔ rows.filterMap (fun r => r.resolved) = [] := by
  by_cases h : (rows.filterMap (fun r => r.resolved)).isEmpty
  · simp [sliceOf, medianQ, h, List.isEmpty_iff.mp h]
  · simp only [sliceOf, medianQ, h, if_neg]
    simp only [Bool.not_eq_true, List.isEmpty_eq_false_iff_exists_mem] at h
    obtain ⟨x, hx⟩ := h
    constructor
    · intro hcon
      exact absurd hcon (by simp)
    · intro hempty
      rw [hempty] at hx
      exact absurd hx (List.not_mem_nil x)

/-- C9: every helpful-rate and every median-resolved-minutes statistic of
`_build_metrics` — overall and in each slice — is `null` exactly when its
denominator (feedback rows in the slice) or its sample list (numeric
resolution times in the slice) is empty; the computation is total, so no
division by zero or exception can occur; in particular on zero
feedback-carrying crying events the whole metrics object degenerates to
null rates and medians with zero sample counts. -/
theorem C9_metrics_null_safety (evs : List CareEvent) :
    ((buildMetrics evs).helpful_rate = none
      ↔ evs.filterMap feedbackRowOf = [])
    ∧ ((buildMetrics evs).median_resolved_minutes = none
      ↔ (evs.filterMap feedbackRowOf).filterMap (fun r => r.resolved) = [])
    ∧ ((buildMetrics evs).with_context.helpful_rate = none
      ↔ (evs.filterMap feedbackRowOf).filter (fun r => !r.limitedContext) = [])
    ∧ ((buildMetrics evs).with_context.median_resolved_minutes = none
      ↔ ((evs.filterMap feedbackRowOf).filter
          (fun r => !r.limitedContext)).filterMap (fun r => r.resolved) = [])
    ∧ ((buildMetrics evs).limited_context.helpful_rate = none
      ↔ (evs.filterMap feedbackRowOf).filter (fun r => r.limitedContext) = [])
    ∧ ((buildMetrics evs).limited_context.median_resolved_minutes = none
      ↔ ((evs.filterMap feedbackRowOf).filter
          (fun r => r.limitedContext)).filterMap (fun r => r.resolved) = [])
    ∧ ((buildMetrics evs).ab_treatment.helpful_rate = none
      ↔ (evs.filterMap feedbackRowOf).filter
          (fun r => r.variant.eqStr ("treatment")) = [])
    ∧ ((buildMetrics evs).ab_treatment.median_resolved_minutes = none
      ↔ ((evs.filterMap feedbackRowOf).filter
          (fun r => r.variant.eqStr ("treatment"))).filterMap
            (fun r => r.resolved) = [])
    ∧ ((buildMetrics evs).ab_control.helpful_rate = none
      ↔ (evs.filterMap feedbackRowOf).filter
          (fun r => r.variant.eqStr ("control")) = [])
    ∧ ((buildMetrics evs).ab_control.median_resolved_minutes = none
      ↔ ((evs.filterMap feedbackRowOf).filter
          (fun r => r.variant.eqStr ("control"))).filterMap
            (fun r => r.resolved) = [])
    ∧ (evs.filterMap feedbackRowOf = [] →
        buildMetrics evs =
          { helpful_rate := none
            median_resolved_minutes := none
            helpful_rate_uplift := none
            median_resolved_minutes_delta := none
            with_context := ⟨0, none, none⟩
            limited_context := ⟨0, none, none⟩
            ab_treatment := ⟨0, none, none⟩
            ab_control := ⟨0, none, none⟩
            ab_helpful_rate_uplift := none
            ab_median_resolved_minutes_delta := none
            totals_crying_events := evs.length
            totals_feedback_events := 0 }) := by
  refine ⟨sliceOf_rate_none _, sliceOf_median_none _,
    sliceOf_rate_none _, sliceOf_median_none _,
    sliceOf_rate_none _, sliceOf_median_none _,
    sliceOf_rate_none _, sliceOf_median_none _,
    sliceOf_rate_none _, sliceOf_median_none _, ?_⟩
  intro hrows
  unfold buildMetrics
  rw [hrows]
  simp [sliceOf, rateOf, medianQ]

/-- Witness for `C9_metrics_null_safety`: on an empty store (zero
feedback events) the helpful rate and the resolution median are both
null. -/
theorem C9_witness :
    ([] : List CareEvent).filterMap feedbackRowOf = []
    ∧ buildMetrics [] =
        { helpful_rate := none
          median_resolved_minutes := none
          helpful_rate_uplift := none
          median_resolved_minutes_delta := none
          with_context := ⟨0, none, none⟩
          limited_context := ⟨0, none, none⟩
          ab_treatment := ⟨0, none, none⟩
          ab_control := ⟨0, none, none⟩
          ab_helpful_rate_uplift := none
          ab_median_resolved_minutes_delta := none
          totals_crying_events := ([] : List CareEvent).length
          totals_feedback_events := 0 } :=
  ⟨rfl, (C9_metrics_null_safety []).2.2.2.2.2.2.2.2.2.2 rfl⟩

/-! ## C7: time bucketing -/

/-- C7 counterexample: the occurrence time `1970-01-01T22:00:00+03:00`
(written hour 22, UTC hour 19) is bucketed `night` although its UTC
hour-of-day 19 lies outside `[20,24) ∪ [0,6)`: `_time_bucket` reads
`dt.hour`, the hour as written with its own offset, and never converts
to UTC. -/
theorem C7_counterexample :
    timeBucket (some ⟨22 * 3600, 180⟩) = Bucket.night
    ∧ IsoTime.utcHour ⟨22 * 3600, 180⟩ = 19
    ∧ ¬ (20 ≤ IsoTime.utcHour ⟨22 * 3600, 180⟩
          ∨ IsoTime.utcHour ⟨22 * 3600, 180⟩ < 6) := by
  refine ⟨by decide, by decide, by decide⟩

/-- C7 (amended): the prior-store time bucket is `night` exactly when the
hour-of-day **as written in the timestamp** (its own offset, not UTC)
lies in `[20,24) ∪ [0,6)`, and `day` otherwise or when the timestamp is
missing/unparseable; the written hour coincides with the UTC hour
whenever the offset is zero (in particular for the `Z`-suffixed
timestamps the system itself generates); and both prior loading and
feedback updates use this bucket of the event occurrence time. -/
theorem C7_time_bucket :
    (∀ t : IsoTime,
      timeBucket (some t) = Bucket.night ↔ (20 ≤ t.hour ∨ t.hour < 6))
    ∧ timeBucket none = Bucket.day
    ∧ (∀ n : ℕ, IsoTime.utcHour ⟨n, 0⟩ = (IsoTime.hour ⟨n, 0⟩ : ℤ))
    ∧ (∀ data t, loadReasoningPriors data t
        = loadPriorsForBucket data (timeBucket t))
    ∧ (∀ data e fb, (updateReasoningPriors data e fb).elim True
        (fun res => res.2.time_bucket = timeBucket e.occurred_at)) := by
  refine ⟨?_, rfl, ?_, fun _ _ => rfl, ?_⟩
  · intro t
    by_cases h : 20 ≤ t.hour ∨ t.hour < 6 <;> simp [timeBucket, h]
  · intro n
    show (((n:ℤ) - 0 * 60).fdiv 3600).emod 24 = ((n / 3600 % 24 : ℕ) : ℤ)
    have h2 : ((n : ℤ) - 0 * 60).fdiv 3600 = ((n / 3600 : ℕ) : ℤ) := by
      rw [show ((n : ℤ) - 0 * 60) = ((n : ℕ) : ℤ) by ring,
        show (3600 : ℤ) = ((3600 : ℕ) : ℤ) from rfl]
      exact (Int.ofNat_fdiv n 3600).symm
    rw [h2]
    show ((n / 3600 : ℕ) : ℤ) % 24 = ((n / 3600 % 24 : ℕ) : ℤ)
    omega
  · intro data e fb
    cases h : updateReasoningPriors data e fb with
    | none => trivial
    | some res =>
        simp only [Option.elim]
        unfold updateReasoningPriors at h
        split at h <;> try exact Option.noConfusion h
        split at h <;> try exact Option.noConfusion h
        split at h <;> try exact Option.noConfusion h
        split at h <;> try exact Option.noConfusion h
        split at h <;> try exact Option.noConfusion h
        split at h <;> try exact Option.noConfusion h
        simp only [Option.some.injEq] at h
        subst h
        rfl
